import Mathlib

/-!
Verification of the tennis MMR rating engine (`mmr_calculator.py`).

The engine state (class `MMRCalculator`) is embedded as a Lean structure whose
Python dictionaries become association lists (`List (String × _)`), preserving
insertion order and first-match lookup, which coincides with Python dict
semantics on the duplicate-free lists the code actually builds.  Real-number
arithmetic of the Python floats is embedded as `ℝ` (with `ℚ` for the purely
rational adjustment-factor calculators so they stay executable); `x ** y` on
floats becomes `Real.rpow` / `zpow`.  Calendar dates (`datetime`) are embedded
as integer day numbers, with `YYYYMMDD` parsing (`strptime`) modelled
explicitly; `(a - b).days` becomes integer subtraction of day numbers.
-/

set_option maxHeartbeats 1000000

/-- Python `dict` lookup (`d.get(k)` / `k in d`): first entry with the key. -/
def dlookup {α : Type} : List (String × α) → String → Option α
  | [], _ => none
  | (k', v) :: rest, k => if k' = k then some v else dlookup rest k

/-- Python `dict` assignment `d[k] = v`: overwrite in place, or append. -/
def dset {α : Type} : List (String × α) → String → α → List (String × α)
  | [], k, v => [(k, v)]
  | (k', v') :: rest, k, v =>
      if k' = k then (k, v) :: rest else (k', v') :: dset rest k v

/-- Apply `f` to the value stored at key `k`, if present (else no change). -/
def dmodify {α : Type} (l : List (String × α)) (k : String) (f : α → α) :
    List (String × α) :=
  l.map (fun kv => if kv.1 = k then (kv.1, f kv.2) else kv)

/-- Apply `f` to every value of the dictionary (a `for key in d:` update loop). -/
def mapvals {α : Type} (f : α → α) (l : List (String × α)) : List (String × α) :=
  l.map (fun kv => (kv.1, f kv.2))

/-! ### The static tournament weight table (`TOURNEY_WEIGHTS`) -/

/-- `TOURNEY_WEIGHTS` of `mmr_calculator.py`; `.get(code, 1.0)` semantics. -/
def tourney_weights (code : String) : ℚ :=
  if code = "G" then 3/2
  else if code = "F" then 7/5
  else if code = "M" then 13/10
  else if code = "A" then 6/5
  else if code = "B" then 11/10
  else if code = "D" then 1
  else if code = "C" then 9/10
  else 1

/-- Python `str(tourney_level)` for an optional level (`None` prints as `"None"`). -/
def levelStr : Option String → String
  | none => "None"
  | some s => s

/-- ASCII upper-casing of one character, as Python `str.upper()` does on the
single-letter tier codes that occur here. -/
def upperChar (c : Char) : Char :=
  if 'a' ≤ c ∧ c ≤ 'z' then Char.ofNat (c.toNat - 32) else c

/-- Python `str.upper()` (ASCII fragment). -/
def pyUpper (s : String) : String := ⟨s.data.map upperChar⟩

/-! ### Score parsing (`parse_score`) -/

/-- Helper for the regex alternative `\(.*?\)`: find the first `')'` (a `.`
never crosses a newline), returning the suffix after it. -/
def findClose : List Char → Option (List Char)
  | [] => none
  | c :: rest =>
      if c = ')' then some rest
      else if c = '\n' then none
      else findClose rest

/-- `re.sub(r'\(.*?\)|[A-Za-z/]+', '', score)`, structurally recursive on a
fuel bound: drop parenthesised groups (shortest match, up to the next `')'`)
and runs of letters and slashes.  The fuel is always at least the length of
the list, so the `0` case is never reached when called via `cleanChars`. -/
def cleanFuel : ℕ → List Char → List Char
  | 0, _ => []
  | _ + 1, [] => []
  | fuel + 1, c :: rest =>
      if c = '(' then
        match findClose rest with
        | some rest' => cleanFuel fuel rest'
        | none => c :: cleanFuel fuel rest
      else if c.isAlpha ∨ c = '/' then cleanFuel fuel rest
      else c :: cleanFuel fuel rest

/-- The regex substitution step of `parse_score`. -/
def cleanChars (l : List Char) : List Char := cleanFuel l.length l

/-- Python `str.split()` with no separator: split on whitespace runs. -/
def wordsAux : List Char → List Char → List (List Char)
  | [], acc => if acc = [] then [] else [acc.reverse]
  | c :: rest, acc =>
      if c.isWhitespace then
        if acc = [] then wordsAux rest [] else acc.reverse :: wordsAux rest []
      else wordsAux rest (c :: acc)

/-- Python `token.split('-')` (keeps empty parts). -/
def splitDash : List Char → List (List Char)
  | [] => [[]]
  | c :: rest =>
      if c = '-' then [] :: splitDash rest
      else
        match splitDash rest with
        | [] => [[c]]
        | g :: gs => (c :: g) :: gs

/-- Python `int(str)` on a score fragment: optional sign then decimal digits. -/
def parseIntChars (l : List Char) : Option ℤ :=
  match l with
  | [] => none
  | '+' :: rest =>
      if rest ≠ [] ∧ rest.all Char.isDigit then
        some (rest.foldl (fun n c => n * 10 + (c.toNat - '0'.toNat : ℤ)) 0)
      else none
  | '-' :: rest =>
      if rest ≠ [] ∧ rest.all Char.isDigit then
        some (-(rest.foldl (fun n c => n * 10 + (c.toNat - '0'.toNat : ℤ)) 0))
      else none
  | l =>
      if l.all Char.isDigit then
        some (l.foldl (fun n c => n * 10 + (c.toNat - '0'.toNat : ℤ)) 0)
      else none

/-- One loop iteration of `parse_score`: tally a `"games-games"` token into
(`sets_won["winner"]`, `sets_won["loser"]`, `total_games_diff`); a token
without `'-'` or whose unpack/`int` raises `ValueError` is skipped. -/
def tallyToken (acc : ℤ × ℤ × ℤ) (t : List Char) : ℤ × ℤ × ℤ :=
  if '-' ∈ t then
    match splitDash t with
    | [a, b] =>
        match parseIntChars a, parseIntChars b with
        | some w, some l =>
            (acc.1 + (if w > l then 1 else 0),
             acc.2.1 + (if l > w then 1 else 0),
             acc.2.2 + |w - l|)
        | _, _ => acc
    | _ => acc
  else acc

/-- The integer part of `parse_score`: clean the score string, split it into
set tokens, and tally (winner sets, loser sets, total game difference). -/
def scoreTally (sc : String) : ℤ × ℤ × ℤ :=
  (wordsAux (cleanChars sc.toList) []).foldl tallyToken (0, 0, 0)

/-- `parse_score` of `mmr_calculator.py`.  A missing / non-string / NaN score
is the `none` case (the `pd.isna` / `isinstance` guard). -/
def parse_score (score : Option String) : ℚ :=
  match score with
  | none => 1
  | some sc =>
      let r := scoreTally sc
      let set_diff : ℤ := r.1 - r.2.1
      if set_diff ≤ 0 then 1
      else min 2 (1 + (set_diff : ℚ) / 10 + (r.2.2 : ℚ) / 100)

/-! ### Seed factor (`calculate_seed_factor`) -/

/-- `calculate_seed_factor` of `mmr_calculator.py` (after the `int()`
conversion step of `update_rating`, which yields `None` on failure). -/
def calculate_seed_factor (win_seed loser_seed : Option ℤ) : ℚ :=
  match win_seed, loser_seed with
  | some w, some l =>
      if l < w then 1 + min (1/2) (((w : ℚ) - (l : ℚ)) / 10)
      else if w < l ∧ l - w > 8 then max (7/10) (1 - ((l : ℚ) - (w : ℚ)) / 20)
      else 1
  | _, _ => 1

/-! ### Engine state (`MMRCalculator`) -/

/-- Python truthiness of an optional string argument (`if surface:`):
`None` and the empty string are falsy. -/
def otruthy : Option String → Bool
  | none => false
  | some s => !s.data.isEmpty

/-- The concrete string carried by a truthy optional argument. -/
def oval (o : Option String) : String := o.getD ""

/-- The joint dimension key `f"{surface}_{level}"`. -/
def combinedKey (su le : String) : String := su ++ "_" ++ le

/-- An argument that Python may receive as a `YYYYMMDD` string or as a
`datetime` value (embedded as an integer day number). -/
inductive DateInput where
  | str (s : String)
  | dt (z : ℤ)

/-- Gregorian leap-year rule, as `datetime` implements it. -/
def isLeap (y : ℕ) : Bool := y % 4 = 0 ∧ (y % 100 ≠ 0 ∨ y % 400 = 0)

/-- Length of month `m` of year `y`. -/
def daysInMonth (y m : ℕ) : ℕ :=
  if m = 2 then (if isLeap y then 29 else 28)
  else if m = 4 ∨ m = 6 ∨ m = 9 ∨ m = 11 then 30 else 31

/-- Days in year `y` before the first of month `m`. -/
def daysBeforeMonth (y m : ℕ) : ℕ :=
  ((List.range (m - 1)).map (fun i => daysInMonth y (i + 1))).sum

/-- Number of leap years in `1..y`. -/
def leapsBefore (y : ℕ) : ℕ := y / 4 - y / 100 + y / 400

/-- Day number of a calendar date (day 0 = January 1 of year 1); only
differences of day numbers are ever used, mirroring `(a - b).days`. -/
def dayNumber (y m d : ℕ) : ℤ :=
  ((365 * (y - 1) + leapsBefore (y - 1) + daysBeforeMonth y m + (d - 1) : ℕ) : ℤ)

/-- Numeric value of a decimal digit character. -/
def digitVal (c : Char) : ℕ := c.toNat - '0'.toNat

/-- `datetime.strptime(s, '%Y%m%d')` on a string already known to be 8 digits
(both call sites check that first): `none` when the call raises `ValueError`
(non-8-digit shape, bad month/day, or year 0). -/
def strptimeYMD (str : String) : Option ℤ :=
  if h : str.data.length = 8 ∧ str.data.all Char.isDigit then
    let y := ((digitVal (str.data.get ⟨0, by omega⟩) * 10 +
        digitVal (str.data.get ⟨1, by omega⟩)) * 10 +
        digitVal (str.data.get ⟨2, by omega⟩)) * 10 +
        digitVal (str.data.get ⟨3, by omega⟩)
    let mo := digitVal (str.data.get ⟨4, by omega⟩) * 10 + digitVal (str.data.get ⟨5, by omega⟩)
    let da := digitVal (str.data.get ⟨6, by omega⟩) * 10 + digitVal (str.data.get ⟨7, by omega⟩)
    if 1 ≤ y ∧ 1 ≤ mo ∧ mo ≤ 12 ∧ 1 ≤ da ∧ da ≤ daysInMonth y mo then
      some (dayNumber y mo da)
    else none
  else none

/-- What a `DateInput` denotes, when well-formed. -/
def parseDateInput : DateInput → Option ℤ
  | .dt z => some z
  | .str s => strptimeYMD s

/-- The state of one `MMRCalculator` instance. -/
structure Engine where
  k : ℝ
  default_rating : ℝ
  decay_rate : ℝ
  ratings : List (String × ℝ)
  surfaces : List (String × List (String × ℝ))
  levels : List (String × List (String × ℝ))
  combined : List (String × List (String × ℝ))
  matches_played : List (String × ℕ)
  matches_by_surface : List (String × List (String × ℕ))
  matches_by_level : List (String × List (String × ℕ))
  matches_combined : List (String × List (String × ℕ))
  current_date : ℤ
  last_decay_date : Option ℤ

/-- `MMRCalculator.__init__` (with `now` the value of `datetime.now()`). -/
def init_engine (k default_rating decay_rate : ℝ) (now : ℤ) : Engine :=
  { k := k, default_rating := default_rating, decay_rate := decay_rate,
    ratings := [], surfaces := [], levels := [], combined := [],
    matches_played := [], matches_by_surface := [], matches_by_level := [],
    matches_combined := [], current_date := now, last_decay_date := some now }

/-- `get_rating` of `mmr_calculator.py`. -/
def get_rating (s : Engine) (player : String) (surface level : Option String) : ℝ :=
  if otruthy surface ∧ otruthy level then
    ((dlookup s.combined player).bind
        (fun inner => dlookup inner (combinedKey (oval surface) (oval level)))).getD
      s.default_rating
  else if otruthy surface then
    ((dlookup s.surfaces player).bind (fun inner => dlookup inner (oval surface))).getD
      s.default_rating
  else if otruthy level then
    ((dlookup s.levels player).bind (fun inner => dlookup inner (oval level))).getD
      s.default_rating
  else (dlookup s.ratings player).getD s.default_rating

/-- Nested dictionary lookup `d.get(p, {}).get(k)` / `p in d and k in d[p]`. -/
def dlookup2 {α : Type} (l : List (String × List (String × α))) (p k : String) : Option α :=
  dlookup ((dlookup l p).getD []) k

/-- `ensure_player_initialized`, first block: overall rating and match count
(`if name not in self.ratings:`). -/
def ensure_overall (s : Engine) (name : String) : Engine :=
  if (dlookup s.ratings name).isNone then
    { s with ratings := dset s.ratings name s.default_rating,
             matches_played := dset s.matches_played name 0 }
  else s

/-- `ensure_player_initialized`, surface block, outer dictionaries
(`if name not in self.surfaces:`). -/
def ensure_surface_outer (s : Engine) (name : String) : Engine :=
  if (dlookup s.surfaces name).isNone then
    { s with surfaces := dset s.surfaces name [],
             matches_by_surface := dset s.matches_by_surface name [] }
  else s

/-- `ensure_player_initialized`, surface block, per-surface entries
(`if surface and surface not in self.surfaces[name]:`). -/
def ensure_surface_inner (s : Engine) (name : String) (surface : Option String) : Engine :=
  if otruthy surface ∧ (dlookup2 s.surfaces name (oval surface)).isNone then
    { s with
      surfaces := dset s.surfaces name
        (dset ((dlookup s.surfaces name).getD []) (oval surface) s.default_rating),
      matches_by_surface := dset s.matches_by_surface name
        (dset ((dlookup s.matches_by_surface name).getD []) (oval surface) 0) }
  else s

/-- `ensure_player_initialized`, tournament-level block, outer dictionaries. -/
def ensure_level_outer (s : Engine) (name : String) : Engine :=
  if (dlookup s.levels name).isNone then
    { s with levels := dset s.levels name [],
             matches_by_level := dset s.matches_by_level name [] }
  else s

/-- `ensure_player_initialized`, tournament-level block, per-level entries. -/
def ensure_level_inner (s : Engine) (name : String) (level : Option String) : Engine :=
  if otruthy level ∧ (dlookup2 s.levels name (oval level)).isNone then
    { s with
      levels := dset s.levels name
        (dset ((dlookup s.levels name).getD []) (oval level) s.default_rating),
      matches_by_level := dset s.matches_by_level name
        (dset ((dlookup s.matches_by_level name).getD []) (oval level) 0) }
  else s

/-- `ensure_player_initialized`, combined block, outer dictionaries. -/
def ensure_combined_outer (s : Engine) (name : String) : Engine :=
  if (dlookup s.combined name).isNone then
    { s with combined := dset s.combined name [],
             matches_combined := dset s.matches_combined name [] }
  else s

/-- `ensure_player_initialized`, combined block, per-key entries
(`if surface and level:` then `if combined_key not in self.combined[name]:`). -/
def ensure_combined_inner (s : Engine) (name : String) (surface level : Option String) :
    Engine :=
  if otruthy surface ∧ otruthy level ∧
      (dlookup2 s.combined name (combinedKey (oval surface) (oval level))).isNone then
    { s with
      combined := dset s.combined name
        (dset ((dlookup s.combined name).getD [])
          (combinedKey (oval surface) (oval level)) s.default_rating),
      matches_combined := dset s.matches_combined name
        (dset ((dlookup s.matches_combined name).getD [])
          (combinedKey (oval surface) (oval level)) 0) }
  else s

/-- `ensure_player_initialized` of `mmr_calculator.py`: the seven
initialisation blocks in source order. -/
def ensure_player_initialized (s : Engine) (name : String) (surface level : Option String) :
    Engine :=
  ensure_combined_inner
    (ensure_combined_outer
      (ensure_level_inner
        (ensure_level_outer
          (ensure_surface_inner (ensure_surface_outer (ensure_overall s name) name)
            name surface)
          name)
        name level)
      name)
    name surface level

/-- `d[p] = d.get(p, 0) + 1` on a counter dictionary. -/
def bump1 (l : List (String × ℕ)) (p : String) : List (String × ℕ) :=
  dset l p ((dlookup l p).getD 0 + 1)

/-- `d[p][k] = d[p].get(k, 0) + 1` on a nested counter dictionary (the outer
entry exists after `ensure_player_initialized`). -/
def bump2 (l : List (String × List (String × ℕ))) (p k : String) :
    List (String × List (String × ℕ)) :=
  dset l p (dset ((dlookup l p).getD []) k ((dlookup ((dlookup l p).getD []) k).getD 0 + 1))

/-- `d[p] += δ` on a rating dictionary (the entry exists after
`ensure_player_initialized`). -/
def addR (l : List (String × ℝ)) (p : String) (δ : ℝ) : List (String × ℝ) :=
  dset l p ((dlookup l p).getD 0 + δ)

/-- `d[p][k] += δ` on a nested rating dictionary (both entries exist after
`ensure_player_initialized`). -/
def add2 (l : List (String × List (String × ℝ))) (p k : String) (δ : ℝ) :
    List (String × List (String × ℝ)) :=
  dset l p (dset ((dlookup l p).getD []) k ((dlookup ((dlookup l p).getD []) k).getD 0 + δ))

noncomputable section

/-- `calculate_time_decay_factor` of `mmr_calculator.py`.  All the paths the
code converts to "no decay" (missing/falsy date, wrong shape, `strptime`
`ValueError` caught by the `except`) collapse into the `1.0` results. -/
def calculate_time_decay_factor (s : Engine) (match_date : Option DateInput) : ℝ :=
  match match_date with
  | none => 1
  | some (.str str) =>
      match strptimeYMD str with
      | some z =>
          max 0.1 (s.decay_rate ^ (((s.current_date - z : ℤ) : ℝ) / 365.25))
      | none => 1
  | some (.dt z) =>
      max 0.1 (s.decay_rate ^ (((s.current_date - z : ℤ) : ℝ) / 365.25))

/-- The record returned by `update_rating` (the `factors` sub-dict is
flattened into fields). -/
structure UpdateResult where
  delta_winner : ℝ
  delta_loser : ℝ
  seed : ℚ
  score : ℚ
  tourney : ℚ
  time_decay : ℝ
  expected : ℝ

/-- `update_rating` of `mmr_calculator.py`, returning the mutated engine
together with the result record.  `ratings[loser] -= delta_loser` is embedded
as adding `-delta_loser`. -/
def update_rating (s : Engine) (winner loser : String) (score : Option String)
    (surface tourney_level : Option String) (win_seed loser_seed : Option ℤ)
    (tourney_date : Option DateInput) : Engine × UpdateResult :=
  let s1 := ensure_player_initialized
    (ensure_player_initialized s winner surface tourney_level) loser surface tourney_level
  let rw := get_rating s1 winner none none
  let rl := get_rating s1 loser none none
  let rw_surface := get_rating s1 winner surface none
  let rl_surface := get_rating s1 loser surface none
  let rw_level := get_rating s1 winner none tourney_level
  let rl_level := get_rating s1 loser none tourney_level
  let rw_combined := get_rating s1 winner surface tourney_level
  let rl_combined := get_rating s1 loser surface tourney_level
  let seed_factor := calculate_seed_factor win_seed loser_seed
  let score_factor := parse_score score
  let level_weight := tourney_weights (pyUpper (levelStr tourney_level))
  let time_decay_factor := calculate_time_decay_factor s1 tourney_date
  let expected_w : ℝ := 1 / (1 + (10 : ℝ) ^ ((rl - rw) / 400))
  let expected_w_combined : ℝ :=
    1 / (1 + (10 : ℝ) ^ (((rl + rl_surface + rl_level + rl_combined) -
      (rw + rw_surface + rw_level + rw_combined)) / 1600))
  let expected_w_final := (expected_w + expected_w_combined) / 2
  let k_winner := s1.k / (1 + ((dlookup s1.matches_played winner).getD 0 : ℝ) / 100)
  let k_loser := s1.k / (1 + ((dlookup s1.matches_played loser).getD 0 : ℝ) / 100)
  let delta_base := (score_factor : ℝ) * (seed_factor : ℝ) * (level_weight : ℝ) *
    time_decay_factor * (1 - expected_w_final)
  let delta_winner := k_winner * delta_base
  let delta_loser := k_loser * delta_base
  let ckey := combinedKey (oval surface) (oval tourney_level)
  let s2 := { s1 with matches_played := bump1 (bump1 s1.matches_played winner) loser }
  let mbs := bump2 (bump2 s2.matches_by_surface winner (oval surface)) loser (oval surface)
  let s3 := if otruthy surface then { s2 with matches_by_surface := mbs } else s2
  let mbl := bump2 (bump2 s3.matches_by_level winner (oval tourney_level)) loser (oval tourney_level)
  let s4 := if otruthy tourney_level then { s3 with matches_by_level := mbl } else s3
  let mbc := bump2 (bump2 s4.matches_combined winner ckey) loser ckey
  let s5 := if otruthy surface ∧ otruthy tourney_level then { s4 with matches_combined := mbc } else s4
  let s6 := { s5 with ratings := addR (addR s5.ratings winner delta_winner) loser (-delta_loser) }
  let sfc := add2 (add2 s6.surfaces winner (oval surface) delta_winner) loser (oval surface) (-delta_loser)
  let s7 := if otruthy surface then { s6 with surfaces := sfc } else s6
  let lvl := add2 (add2 s7.levels winner (oval tourney_level) delta_winner) loser (oval tourney_level) (-delta_loser)
  let s8 := if otruthy tourney_level then { s7 with levels := lvl } else s7
  let cmb := add2 (add2 s8.combined winner ckey delta_winner) loser ckey (-delta_loser)
  let s9 := if otruthy surface ∧ otruthy tourney_level then { s8 with combined := cmb } else s8
  (s9, { delta_winner := delta_winner, delta_loser := delta_loser,
         seed := seed_factor, score := score_factor, tourney := level_weight,
         time_decay := time_decay_factor, expected := expected_w_final })

/-- `set_current_date` of `mmr_calculator.py`: `.error` is the raised
`ValueError` (either the explicit format error or one escaping `strptime`),
in which case no state was mutated. -/
def set_current_date (s : Engine) (d : DateInput) : Except Unit Engine :=
  match d with
  | .str str =>
      if str.data.length = 8 ∧ str.data.all Char.isDigit then
        match strptimeYMD str with
        | some z => .ok { s with current_date := z }
        | none => .error ()
      else .error ()
  | .dt z => .ok { s with current_date := z }

/-- The report dict returned by `apply_global_decay`. -/
structure DecayReport where
  affected_players : ℕ
  average_decay : ℝ
  max_decay : ℝ
  days_applied : ℤ
  decay_multiplier : ℝ

/-- One iteration of the `for player in self.ratings.keys():` loop of
`apply_global_decay`; the accumulator carries the engine together with
(`total_changes`, `max_decay`, `affected_players`). -/
def decay_player (m : ℝ) (acc : Engine × ℝ × ℝ × ℕ) (p : String) : Engine × ℝ × ℝ × ℕ :=
  let s := acc.1
  if (dlookup s.matches_played p).getD 0 < 3 then acc
  else
    let orig := (dlookup s.ratings p).getD 0
    let s' := { s with
      ratings := dset s.ratings p (orig * m),
      surfaces := dmodify s.surfaces p (mapvals (· * m)),
      levels := dmodify s.levels p (mapvals (· * m)),
      combined := dmodify s.combined p (mapvals (· * m)) }
    let change := orig - orig * m
    if 0 < change then (s', acc.2.1 + change, max acc.2.2.1 change, acc.2.2.2 + 1)
    else (s', acc.2.1, acc.2.2.1, acc.2.2.2)

/-- The body of `apply_global_decay` (everything except the optional
`reference_date` override handling). -/
def apply_decay_core (s : Engine) : Engine × DecayReport :=
  let daily_decay_factor : ℝ := s.decay_rate ^ ((1 : ℝ) / 365.25)
  let days_since_last_decay : ℤ :=
    match s.last_decay_date with
    | some d => s.current_date - d
    | none => 30
  let decay_multiplier : ℝ := daily_decay_factor ^ days_since_last_decay
  let r := (s.ratings.map Prod.fst).foldl (decay_player decay_multiplier) (s, 0, 0, 0)
  let s1 := { r.1 with last_decay_date := some r.1.current_date }
  (s1, { affected_players := r.2.2.2,
         average_decay := if 0 < r.2.2.2 then r.2.1 / (r.2.2.2 : ℝ) else 0,
         max_decay := r.2.2.1,
         days_applied := days_since_last_decay,
         decay_multiplier := decay_multiplier })

/-- `apply_global_decay` of `mmr_calculator.py`.  A supplied `reference_date`
is routed through `set_current_date` (whose `ValueError` propagates), and the
prior `current_date` is restored after the body ran. -/
def apply_global_decay (s : Engine) (reference_date : Option DateInput) :
    Except Unit (Engine × DecayReport) :=
  match reference_date with
  | none => .ok (apply_decay_core s)
  | some r =>
      match set_current_date s r with
      | .error e => .error e
      | .ok s1 =>
          let res := apply_decay_core s1
          .ok ({ res.1 with current_date := s.current_date }, res.2)

end

/-- A concrete engine used to instantiate the decay theorems: one tracked
competitor "P" at rating 1500 with 3 matches, decay rate 1/2, and a one-day
gap since the last decay application. -/
noncomputable def decayWitnessEngine : Engine :=
  { k := 32, default_rating := 1500, decay_rate := 1/2,
    ratings := [("P", 1500)], surfaces := [("P", [("clay", 1400)])],
    levels := [], combined := [],
    matches_played := [("P", 3)], matches_by_surface := [("P", [("clay", 3)])],
    matches_by_level := [], matches_combined := [],
    current_date := 10, last_decay_date := some 9 }

/-- A concrete engine refuting C8 as literally stated: competitor "P" is
tracked with 3 matches but sits at rating 0, which a multiplicative decay
cannot strictly decrease. -/
noncomputable def zeroRatingEngine : Engine :=
  { k := 32, default_rating := 1500, decay_rate := 1/2,
    ratings := [("P", 0)], surfaces := [], levels := [], combined := [],
    matches_played := [("P", 3)], matches_by_surface := [], matches_by_level := [],
    matches_combined := [], current_date := 1, last_decay_date := some 0 }

/-- The end-to-end run of C1: one `update_rating` call between fresh
competitors "A" and "B" on surface "hard", tier "A", with no score, seeds or
date, on an engine with `k = 32`, `defaultRating = 1500`. -/
noncomputable def first_match_run : Engine × UpdateResult :=
  update_rating (init_engine 32 1500 0.85 0) "A" "B" none (some "hard") (some "A")
    none none none

/-! ### Claim theorems and supporting lemmas -/

@[simp] theorem dlookup_nil {α : Type} (k : String) :
    dlookup ([] : List (String × α)) k = none := rfl

@[simp] theorem dlookup_cons {α : Type} (k' k : String) (v : α) (rest) :
    dlookup ((k', v) :: rest) k = if k' = k then some v else dlookup rest k := rfl

@[simp] theorem dlookup_dset_self {α : Type} (l : List (String × α)) (k : String) (v : α) :
    dlookup (dset l k v) k = some v := by
  induction l with
  | nil => simp [dset]
  | cons kv rest ih =>
      obtain ⟨k', v'⟩ := kv
      by_cases h : k' = k <;> simp [dset, h, ih]

theorem dlookup_dset_ne {α : Type} (l : List (String × α)) (k k' : String) (v : α)
    (h : k' ≠ k) : dlookup (dset l k v) k' = dlookup l k' := by
  induction l with
  | nil => simp [dset, dlookup, if_neg (Ne.symm h)]
  | cons kv rest ih =>
      obtain ⟨k₀, v₀⟩ := kv
      by_cases h₀ : k₀ = k
      · subst h₀
        simp [dset, dlookup, if_neg (Ne.symm h)]
      · simp only [dset, if_neg h₀, dlookup_cons]
        by_cases h₁ : k₀ = k' <;> simp [h₁, ih]

theorem dlookup_dmodify_self {α : Type} (l : List (String × α)) (k : String) (f : α → α) :
    dlookup (dmodify l k f) k = (dlookup l k).map f := by
  induction l with
  | nil => simp [dmodify]
  | cons kv rest ih =>
      obtain ⟨k', v'⟩ := kv
      by_cases h : k' = k
      · simp [dmodify, h]
      · simp only [dmodify, List.map_cons, if_neg h, dlookup_cons, if_neg h]
        simpa [dmodify] using ih

theorem dlookup_dmodify_ne {α : Type} (l : List (String × α)) (k k' : String) (f : α → α)
    (h : k' ≠ k) : dlookup (dmodify l k f) k' = dlookup l k' := by
  induction l with
  | nil => simp [dmodify]
  | cons kv rest ih =>
      obtain ⟨k₀, v₀⟩ := kv
      by_cases h₀ : k₀ = k
      · subst h₀
        have hd : dmodify ((k₀, v₀) :: rest) k₀ f = (k₀, f v₀) :: dmodify rest k₀ f := by
          simp [dmodify]
        rw [hd, dlookup_cons, dlookup_cons, if_neg (Ne.symm h), if_neg (Ne.symm h)]
        exact ih
      · simp only [dmodify, List.map_cons, if_neg h₀, dlookup_cons]
        by_cases h₁ : k₀ = k'
        · simp [h₁]
        · simp only [if_neg h₁]
          simpa [dmodify] using ih

theorem dlookup_mapvals {α : Type} (f : α → α) (l : List (String × α)) (k : String) :
    dlookup (mapvals f l) k = (dlookup l k).map f := by
  induction l with
  | nil => simp [mapvals]
  | cons kv rest ih =>
      obtain ⟨k', v'⟩ := kv
      by_cases h : k' = k
      · simp [mapvals, h]
      · simp only [mapvals, List.map_cons, dlookup_cons, if_neg h]
        simpa [mapvals] using ih

theorem mem_keys_iff_isSome {α : Type} (l : List (String × α)) (k : String) :
    k ∈ l.map Prod.fst ↔ (dlookup l k).isSome := by
  induction l with
  | nil => simp
  | cons kv rest ih =>
      obtain ⟨k', v'⟩ := kv
      by_cases h : k' = k
      · simp [h]
      · simp only [List.map_cons, List.mem_cons, dlookup_cons, if_neg h]
        constructor
        · intro hmem
          rcases hmem with h' | h'
          · exact absurd h'.symm h
          · exact ih.mp h'
        · intro h'
          exact Or.inr (ih.mpr h')

theorem findClose_length (l l' : List Char) (h : findClose l = some l') :
    l'.length < l.length := by
  induction l with
  | nil => simp [findClose] at h
  | cons c rest ih =>
      by_cases hc : c = ')'
      · simp [findClose, hc] at h
        subst h
        simp
      · by_cases hn : c = '\n'
        · simp [findClose, hc, hn] at h
        · simp [findClose, hc, hn] at h
          exact Nat.lt_succ_of_lt (ih h)

/-! Claim theorems: the pure calculators -/

/-- C4: the score factor is 1.0 for a missing/non-string score; after
stripping annotations and tallying `"games-games"` tokens it is 1.0 when the
winner's set count does not exceed the loser's, and otherwise
`min(2.0, 1.0 + 0.1*setDiff + 0.01*totalGameDiff)`; in particular
`"6-4 6-3" ↦ 1.25`, `"4-6 3-6" ↦ 1.0`, `"6-4 RET" ↦ 1.12`. -/
theorem parse_score_spec :
    parse_score none = 1 ∧
    (∀ sc : String,
      parse_score (some sc) =
        (if (scoreTally sc).1 - (scoreTally sc).2.1 ≤ 0 then 1
         else min 2 (1 + (((scoreTally sc).1 - (scoreTally sc).2.1 : ℤ) : ℚ) / 10 +
           ((scoreTally sc).2.2 : ℚ) / 100))) ∧
    parse_score (some "6-4 6-3") = 1.25 ∧
    parse_score (some "4-6 3-6") = 1 ∧
    parse_score (some "6-4 RET") = 1.12 := by
  refine ⟨rfl, fun sc => rfl, ?_, ?_, ?_⟩
  · have h : scoreTally "6-4 6-3" = (2, 0, 5) := by decide
    rw [show parse_score (some "6-4 6-3") =
      (if (scoreTally "6-4 6-3").1 - (scoreTally "6-4 6-3").2.1 ≤ 0 then 1
       else min 2 (1 + (((scoreTally "6-4 6-3").1 - (scoreTally "6-4 6-3").2.1 : ℤ) : ℚ) / 10 +
         ((scoreTally "6-4 6-3").2.2 : ℚ) / 100)) from rfl, h]
    norm_num [min_def]
  · have h : scoreTally "4-6 3-6" = (0, 2, 5) := by decide
    rw [show parse_score (some "4-6 3-6") =
      (if (scoreTally "4-6 3-6").1 - (scoreTally "4-6 3-6").2.1 ≤ 0 then 1
       else min 2 (1 + (((scoreTally "4-6 3-6").1 - (scoreTally "4-6 3-6").2.1 : ℤ) : ℚ) / 10 +
         ((scoreTally "4-6 3-6").2.2 : ℚ) / 100)) from rfl, h]
    norm_num
  · have h : scoreTally "6-4 RET" = (1, 0, 2) := by decide
    rw [show parse_score (some "6-4 RET") =
      (if (scoreTally "6-4 RET").1 - (scoreTally "6-4 RET").2.1 ≤ 0 then 1
       else min 2 (1 + (((scoreTally "6-4 RET").1 - (scoreTally "6-4 RET").2.1 : ℤ) : ℚ) / 10 +
         ((scoreTally "6-4 RET").2.2 : ℚ) / 100)) from rfl, h]
    norm_num [min_def]

/-- C5: the seed factor is 1.0 when either seed is absent; an upset (loser
seeded better) gives `1 + min(0.5, (winnerSeed - loserSeed)/10)`; a win over
an opponent seeded more than 8 positions worse gives
`max(0.7, 1 - (loserSeed - winnerSeed)/20)`; otherwise 1.0; in particular
`(5,1) ↦ 1.4`, `(1,16) ↦ 0.7`, `(3,5) ↦ 1.0`. -/
theorem calculate_seed_factor_spec :
    (∀ l, calculate_seed_factor none l = 1) ∧
    (∀ w, calculate_seed_factor w none = 1) ∧
    (∀ w l : ℤ, l < w →
      calculate_seed_factor (some w) (some l) = 1 + min (1/2) (((w : ℚ) - (l : ℚ)) / 10)) ∧
    (∀ w l : ℤ, w < l → 8 < l - w →
      calculate_seed_factor (some w) (some l) = max (7/10) (1 - ((l : ℚ) - (w : ℚ)) / 20)) ∧
    (∀ w l : ℤ, ¬ l < w → ¬ (w < l ∧ 8 < l - w) →
      calculate_seed_factor (some w) (some l) = 1) ∧
    calculate_seed_factor (some 5) (some 1) = 1.4 ∧
    calculate_seed_factor (some 1) (some 16) = 0.7 ∧
    calculate_seed_factor (some 3) (some 5) = 1 := by
  refine ⟨?_, ?_, ?_, ?_, ?_, ?_, ?_, ?_⟩
  · intro l
    cases l <;> rfl
  · intro w
    cases w <;> rfl
  · intro w l h
    simp [calculate_seed_factor, h]
  · intro w l h h8
    have hnl : ¬ l < w := by omega
    simp [calculate_seed_factor, hnl, h, h8]
  · intro w l h hn
    simp only [calculate_seed_factor, if_neg h]
    rw [if_neg]
    intro hc
    exact hn ⟨hc.1, hc.2⟩
  · rw [calculate_seed_factor]
    norm_num [min_def]
  · rw [calculate_seed_factor]
    norm_num [max_def]
  · rw [calculate_seed_factor]
    norm_num

/-- Companion evaluation for C5, discharging the branch hypotheses of
`calculate_seed_factor_spec` at the concrete seed pairs of the claim. -/
theorem calculate_seed_factor_spec_witness :
    ((1 : ℤ) < 5 ∧
      calculate_seed_factor (some 5) (some 1) = 1 + min (1/2) (((5 : ℚ) - (1 : ℚ)) / 10)) ∧
    ((1 : ℤ) < 16 ∧ (8 : ℤ) < 16 - 1 ∧
      calculate_seed_factor (some 1) (some 16) = max (7/10) (1 - ((16 : ℚ) - (1 : ℚ)) / 20)) :=
  ⟨⟨by norm_num, calculate_seed_factor_spec.2.2.1 5 1 (by norm_num)⟩,
   ⟨by norm_num, by norm_num,
    calculate_seed_factor_spec.2.2.2.1 1 16 (by norm_num) (by norm_num)⟩⟩

/-
`set_current_date` behaves exactly like a parse of its argument: a valid
date sets `current_date` and nothing else, anything else raises.
-/
theorem set_current_date_parse (s : Engine) (d : DateInput) :
    set_current_date s d =
      (match parseDateInput d with
       | some z => Except.ok { s with current_date := z }
       | none => Except.error ()) := by
  cases d with
  | dt z => rfl
  | str st =>
      by_cases h : st.data.length = 8 ∧ st.data.all Char.isDigit
      · simp only [set_current_date, parseDateInput, if_pos h]
      · have hz : strptimeYMD st = none := by
          rw [strptimeYMD, dif_neg h]
        simp only [set_current_date, parseDateInput, if_neg h, hz]

/-- C7: `set_current_date` accepts exactly a valid 8-digit `YYYYMMDD` digit
string or a native date value, setting `current_date` (and touching nothing
else); every other argument yields the raised format error, with no state
mutated (the error branch returns before any assignment). -/
theorem set_current_date_spec (s : Engine) (d : DateInput) :
    set_current_date s d =
      (match parseDateInput d with
       | some z => Except.ok { s with current_date := z }
       | none => Except.error ()) :=
  set_current_date_parse s d

/-- C1: a first match between fresh competitors "A" (winner) and "B" (loser)
with no score, no seeds, no date, surface "hard", tier "A", `k = 32`,
`defaultRating = 1500`: all factors are neutral except the tier weight 1.2,
both logistic forms give expected win probability 1/2, both learning rates
are 32, both deltas are `32 * 1.2 * 0.5 = 19.2`, and afterwards A is at
1519.2, B at 1480.8, each with one match played. -/
theorem update_two_new_players_spec :
    first_match_run.2.expected = 1/2 ∧ first_match_run.2.score = 1 ∧
    first_match_run.2.seed = 1 ∧ first_match_run.2.tourney = 1.2 ∧
    first_match_run.2.time_decay = 1 ∧ first_match_run.2.delta_winner = 19.2 ∧
    first_match_run.2.delta_loser = 19.2 ∧
    get_rating first_match_run.1 "A" none none = 1519.2 ∧
    get_rating first_match_run.1 "B" none none = 1480.8 ∧
    dlookup first_match_run.1.matches_played "A" = some 1 ∧
    dlookup first_match_run.1.matches_played "B" = some 1 := by
  have hsu : otruthy (some "hard") = true := by decide
  have hlv : otruthy (some "A") = true := by decide
  have hno : otruthy none = false := rfl
  have hov1 : oval (some "hard") = "hard" := rfl
  have hov2 : oval (some "A") = "A" := rfl
  have hck : combinedKey "hard" "A" = "hard_A" := by decide
  have hup : pyUpper (levelStr (some "A")) = "A" := by decide
  simp [first_match_run, update_rating, init_engine, ensure_player_initialized, ensure_overall,
    ensure_surface_outer, ensure_surface_inner, ensure_level_outer, ensure_level_inner,
    ensure_combined_outer, ensure_combined_inner, dlookup2, get_rating,
    bump1, bump2, addR, add2, dset, dlookup, hsu, hlv, hno, hov1, hov2, hck, hup,
    parse_score, calculate_seed_factor, calculate_time_decay_factor, tourney_weights,
    Real.rpow_zero]
  norm_num

/-- C3 (amended): the per-match time-decay factor computed inside
`update_rating` is always at least 0.1 (either a neutral 1.0 fallback or an
explicit `max(0.1, ...)`); the global decay multiplier of
`apply_global_decay` carries no such floor. -/
theorem calculate_time_decay_factor_floor (s : Engine) (d : Option DateInput) :
    (0.1 : ℝ) ≤ calculate_time_decay_factor s d := by
  rcases d with _ | d
  · norm_num [calculate_time_decay_factor]
  · cases d with
    | str st =>
        rw [calculate_time_decay_factor]
        cases hz : strptimeYMD st
        · norm_num
        · exact le_max_left _ _
    | dt z => exact le_max_left _ _

/-- Counterexample to C3 as stated: with `decayRate = 1/2` and a 36525-day
gap (100 years), `apply_global_decay` applies the multiplier
`(1/2)^100 < 0.1` to the tracked competitor's ratings — the global decay
multiplier is not floored at 0.1. -/
theorem apply_global_decay_multiplier_below_floor :
    (apply_global_decay
        { k := 32, default_rating := 1500, decay_rate := 1/2,
          ratings := [("P", 1500)], surfaces := [], levels := [], combined := [],
          matches_played := [("P", 3)], matches_by_surface := [], matches_by_level := [],
          matches_combined := [], current_date := 36525, last_decay_date := some 0 }
        none).map (fun es => es.2.decay_multiplier) =
      Except.ok (((1 : ℝ)/2) ^ (100 : ℕ)) ∧
    ((1 : ℝ)/2) ^ (100 : ℕ) < 0.1 := by
  constructor
  · have hx : (0 : ℝ) ≤ 1/2 := by norm_num
    have key : (((1 : ℝ)/2) ^ ((1 : ℝ)/365.25)) ^ ((36525 : ℤ) - 0) =
        ((1 : ℝ)/2) ^ (100 : ℕ) := by
      rw [show ((36525 : ℤ) - 0) = ((36525 : ℕ) : ℤ) from rfl, zpow_natCast,
        ← Real.rpow_natCast (((1 : ℝ)/2) ^ ((1 : ℝ)/365.25)) 36525,
        ← Real.rpow_mul hx,
        show ((1 : ℝ)/365.25 * ((36525 : ℕ) : ℝ)) = ((100 : ℕ) : ℝ) by norm_num,
        Real.rpow_natCast]
    simp only [apply_global_decay, apply_decay_core, Except.map]
    rw [← key]
  · norm_num

/-! ### Helper lemmas about the global-decay loop -/

theorem decay_player_lt3 (m : ℝ) (acc : Engine × ℝ × ℝ × ℕ) (p : String)
    (h : (dlookup acc.1.matches_played p).getD 0 < 3) : decay_player m acc p = acc := by
  rw [decay_player, if_pos h]

theorem decay_player_fields (m : ℝ) (acc : Engine × ℝ × ℝ × ℕ) (p : String) :
    (decay_player m acc p).1.matches_played = acc.1.matches_played ∧
    (decay_player m acc p).1.current_date = acc.1.current_date ∧
    (decay_player m acc p).1.last_decay_date = acc.1.last_decay_date := by
  rw [decay_player]
  split
  · exact ⟨rfl, rfl, rfl⟩
  · dsimp only
    split
    · exact ⟨rfl, rfl, rfl⟩
    · exact ⟨rfl, rfl, rfl⟩

theorem decay_player_other (m : ℝ) (acc : Engine × ℝ × ℝ × ℕ) (p q : String)
    (hq : q ≠ p) :
    dlookup (decay_player m acc p).1.ratings q = dlookup acc.1.ratings q ∧
    dlookup (decay_player m acc p).1.surfaces q = dlookup acc.1.surfaces q ∧
    dlookup (decay_player m acc p).1.levels q = dlookup acc.1.levels q ∧
    dlookup (decay_player m acc p).1.combined q = dlookup acc.1.combined q := by
  rw [decay_player]
  split
  · exact ⟨rfl, rfl, rfl, rfl⟩
  · dsimp only
    split <;>
      exact ⟨dlookup_dset_ne _ _ _ _ hq, dlookup_dmodify_ne _ _ _ _ hq,
        dlookup_dmodify_ne _ _ _ _ hq, dlookup_dmodify_ne _ _ _ _ hq⟩

theorem decay_player_self (m : ℝ) (acc : Engine × ℝ × ℝ × ℕ) (p : String)
    (h : ¬ (dlookup acc.1.matches_played p).getD 0 < 3) :
    dlookup (decay_player m acc p).1.ratings p =
      some ((dlookup acc.1.ratings p).getD 0 * m) ∧
    dlookup (decay_player m acc p).1.surfaces p =
      (dlookup acc.1.surfaces p).map (mapvals (· * m)) ∧
    dlookup (decay_player m acc p).1.levels p =
      (dlookup acc.1.levels p).map (mapvals (· * m)) ∧
    dlookup (decay_player m acc p).1.combined p =
      (dlookup acc.1.combined p).map (mapvals (· * m)) := by
  rw [decay_player, if_neg h]
  dsimp only
  split <;>
    exact ⟨dlookup_dset_self _ _ _, dlookup_dmodify_self _ _ _,
      dlookup_dmodify_self _ _ _, dlookup_dmodify_self _ _ _⟩

theorem fold_decay_fields (m : ℝ) (ks : List String) :
    ∀ acc : Engine × ℝ × ℝ × ℕ,
    (ks.foldl (decay_player m) acc).1.matches_played = acc.1.matches_played ∧
    (ks.foldl (decay_player m) acc).1.current_date = acc.1.current_date ∧
    (ks.foldl (decay_player m) acc).1.last_decay_date = acc.1.last_decay_date := by
  induction ks with
  | nil => exact fun acc => ⟨rfl, rfl, rfl⟩
  | cons q rest ih =>
      intro acc
      simp only [List.foldl_cons]
      obtain ⟨h1, h2, h3⟩ := ih (decay_player m acc q)
      obtain ⟨g1, g2, g3⟩ := decay_player_fields m acc q
      exact ⟨h1.trans g1, h2.trans g2, h3.trans g3⟩

theorem fold_decay_notmem (m : ℝ) (ks : List String) (p : String) :
    ∀ acc : Engine × ℝ × ℝ × ℕ, p ∉ ks →
    dlookup (ks.foldl (decay_player m) acc).1.ratings p = dlookup acc.1.ratings p ∧
    dlookup (ks.foldl (decay_player m) acc).1.surfaces p = dlookup acc.1.surfaces p ∧
    dlookup (ks.foldl (decay_player m) acc).1.levels p = dlookup acc.1.levels p ∧
    dlookup (ks.foldl (decay_player m) acc).1.combined p = dlookup acc.1.combined p := by
  induction ks with
  | nil => exact fun acc _ => ⟨rfl, rfl, rfl, rfl⟩
  | cons q rest ih =>
      intro acc hp
      have hpq : p ≠ q := fun h => hp (h ▸ List.mem_cons_self q rest)
      have hprest : p ∉ rest := fun h => hp (List.mem_cons_of_mem q h)
      simp only [List.foldl_cons]
      obtain ⟨h1, h2, h3, h4⟩ := ih (decay_player m acc q) hprest
      obtain ⟨g1, g2, g3, g4⟩ := decay_player_other m acc q p hpq
      exact ⟨h1.trans g1, h2.trans g2, h3.trans g3, h4.trans g4⟩

theorem fold_decay_lt3 (m : ℝ) (ks : List String) (p : String) :
    ∀ acc : Engine × ℝ × ℝ × ℕ, (dlookup acc.1.matches_played p).getD 0 < 3 →
    dlookup (ks.foldl (decay_player m) acc).1.ratings p = dlookup acc.1.ratings p ∧
    dlookup (ks.foldl (decay_player m) acc).1.surfaces p = dlookup acc.1.surfaces p ∧
    dlookup (ks.foldl (decay_player m) acc).1.levels p = dlookup acc.1.levels p ∧
    dlookup (ks.foldl (decay_player m) acc).1.combined p = dlookup acc.1.combined p := by
  induction ks with
  | nil => exact fun acc _ => ⟨rfl, rfl, rfl, rfl⟩
  | cons q rest ih =>
      intro acc h3
      simp only [List.foldl_cons]
      by_cases hpq : q = p
      · subst hpq
        rw [decay_player_lt3 m acc q h3]
        exact ih acc h3
      · have h3' : (dlookup (decay_player m acc q).1.matches_played p).getD 0 < 3 := by
          rw [(decay_player_fields m acc q).1]
          exact h3
        obtain ⟨h1, h2, h3'', h4⟩ := ih (decay_player m acc q) h3'
        obtain ⟨g1, g2, g3, g4⟩ := decay_player_other m acc q p (Ne.symm hpq)
        exact ⟨h1.trans g1, h2.trans g2, h3''.trans g3, h4.trans g4⟩

theorem fold_decay_mem (m : ℝ) (ks : List String) (p : String) :
    ∀ acc : Engine × ℝ × ℝ × ℕ, ks.Nodup → p ∈ ks →
    ¬ (dlookup acc.1.matches_played p).getD 0 < 3 →
    dlookup (ks.foldl (decay_player m) acc).1.ratings p =
      some ((dlookup acc.1.ratings p).getD 0 * m) ∧
    dlookup (ks.foldl (decay_player m) acc).1.surfaces p =
      (dlookup acc.1.surfaces p).map (mapvals (· * m)) ∧
    dlookup (ks.foldl (decay_player m) acc).1.levels p =
      (dlookup acc.1.levels p).map (mapvals (· * m)) ∧
    dlookup (ks.foldl (decay_player m) acc).1.combined p =
      (dlookup acc.1.combined p).map (mapvals (· * m)) := by
  induction ks with
  | nil =>
      intro acc _ hp
      cases hp
  | cons q rest ih =>
      intro acc hnd hp h3
      rcases List.nodup_cons.mp hnd with ⟨hqrest, hndr⟩
      simp only [List.foldl_cons]
      by_cases hpq : p = q
      · subst hpq
        obtain ⟨r1, r2, r3, r4⟩ := fold_decay_notmem m rest p (decay_player m acc p) hqrest
        obtain ⟨s1, s2, s3, s4⟩ := decay_player_self m acc p h3
        exact ⟨r1.trans s1, r2.trans s2, r3.trans s3, r4.trans s4⟩
      · have hprest : p ∈ rest := by
          rcases List.mem_cons.mp hp with h | h
          · exact absurd h hpq
          · exact h
        have h3' : ¬ (dlookup (decay_player m acc q).1.matches_played p).getD 0 < 3 := by
          rw [(decay_player_fields m acc q).1]
          exact h3
        obtain ⟨i1, i2, i3, i4⟩ := ih (decay_player m acc q) hndr hprest h3'
        obtain ⟨g1, g2, g3, g4⟩ := decay_player_other m acc q p hpq
        rw [g1] at i1
        rw [g2] at i2
        rw [g3] at i3
        rw [g4] at i4
        exact ⟨i1, i2, i3, i4⟩

/-
Full characterisation of an override-free `apply_global_decay` call, used by
the decay claims below.
-/
theorem global_decay_lookup (s s' : Engine) (rep : DecayReport)
    (hnd : (s.ratings.map Prod.fst).Nodup)
    (h : apply_global_decay s none = Except.ok (s', rep)) :
    rep.days_applied =
      (match s.last_decay_date with | some d => s.current_date - d | none => 30) ∧
    rep.decay_multiplier = (s.decay_rate ^ ((1 : ℝ)/365.25)) ^ rep.days_applied ∧
    s'.current_date = s.current_date ∧
    s'.last_decay_date = some s.current_date ∧
    (∀ p v, 3 ≤ (dlookup s.matches_played p).getD 0 →
      dlookup s.ratings p = some v →
      dlookup s'.ratings p = some (v * rep.decay_multiplier)) ∧
    (∀ p, 3 ≤ (dlookup s.matches_played p).getD 0 → (dlookup s.ratings p).isSome →
      dlookup s'.surfaces p =
        (dlookup s.surfaces p).map (mapvals (· * rep.decay_multiplier)) ∧
      dlookup s'.levels p =
        (dlookup s.levels p).map (mapvals (· * rep.decay_multiplier)) ∧
      dlookup s'.combined p =
        (dlookup s.combined p).map (mapvals (· * rep.decay_multiplier))) ∧
    (∀ p, (dlookup s.matches_played p).getD 0 < 3 →
      dlookup s'.ratings p = dlookup s.ratings p ∧
      dlookup s'.surfaces p = dlookup s.surfaces p ∧
      dlookup s'.levels p = dlookup s.levels p ∧
      dlookup s'.combined p = dlookup s.combined p) := by
  have hcore : apply_decay_core s = (s', rep) := by
    have he : apply_global_decay s none = Except.ok (apply_decay_core s) := rfl
    rw [he, Except.ok.injEq] at h
    exact h
  have hs' : s' = (apply_decay_core s).1 := by rw [hcore]
  have hrep : rep = (apply_decay_core s).2 := by rw [hcore]
  subst hs'
  subst hrep
  set dd : ℤ := (match s.last_decay_date with | some d => s.current_date - d | none => 30)
    with hdd
  set M : ℝ := (s.decay_rate ^ ((1 : ℝ)/365.25)) ^ dd with hM
  refine ⟨rfl, rfl, ?_, ?_, ?_, ?_, ?_⟩
  · show ((s.ratings.map Prod.fst).foldl (decay_player M)
        ((s, (0 : ℝ), (0 : ℝ), (0 : ℕ)))).1.current_date = s.current_date
    exact (fold_decay_fields M (s.ratings.map Prod.fst) (s, 0, 0, 0)).2.1
  · show (some ((s.ratings.map Prod.fst).foldl (decay_player M)
        ((s, (0 : ℝ), (0 : ℝ), (0 : ℕ)))).1.current_date : Option ℤ) = some s.current_date
    rw [(fold_decay_fields M (s.ratings.map Prod.fst) (s, 0, 0, 0)).2.1]
  · intro p v h3 hv
    have hp : p ∈ s.ratings.map Prod.fst := by
      rw [mem_keys_iff_isSome, hv]
      rfl
    have h3' : ¬ (dlookup ((s, (0 : ℝ), (0 : ℝ), (0 : ℕ)) :
        Engine × ℝ × ℝ × ℕ).1.matches_played p).getD 0 < 3 := not_lt.mpr h3
    obtain ⟨r1, _, _, _⟩ :=
      fold_decay_mem M (s.ratings.map Prod.fst) p (s, 0, 0, 0) hnd hp h3'
    show dlookup ((s.ratings.map Prod.fst).foldl (decay_player M)
        ((s, (0 : ℝ), (0 : ℝ), (0 : ℕ)))).1.ratings p = some (v * M)
    rw [r1, show ((s, (0 : ℝ), (0 : ℝ), (0 : ℕ)) :
      Engine × ℝ × ℝ × ℕ).1 = s from rfl, hv]
    rfl
  · intro p h3 hps
    have hp : p ∈ s.ratings.map Prod.fst := (mem_keys_iff_isSome _ _).mpr hps
    have h3' : ¬ (dlookup ((s, (0 : ℝ), (0 : ℝ), (0 : ℕ)) :
        Engine × ℝ × ℝ × ℕ).1.matches_played p).getD 0 < 3 := not_lt.mpr h3
    obtain ⟨_, r2, r3, r4⟩ :=
      fold_decay_mem M (s.ratings.map Prod.fst) p (s, 0, 0, 0) hnd hp h3'
    exact ⟨r2, r3, r4⟩
  · intro p h3
    obtain ⟨r1, r2, r3, r4⟩ :=
      fold_decay_lt3 M (s.ratings.map Prod.fst) p ((s, (0 : ℝ), (0 : ℝ), (0 : ℕ))) h3
    exact ⟨r1, r2, r3, r4⟩

/-- C2: `apply_global_decay` (no override) computes one multiplier
`(decayRate^(1/365.25))^days` with `days` the whole-day gap from
`lastDecayApplicationDate` (30 when that watermark is absent), multiplies the
overall rating and every surface/tier/joint entry of every competitor with
`matchesPlayed >= 3` by it, leaves every rating of competitors with fewer
than 3 matches unchanged, and sets `lastDecayApplicationDate := currentDate`. -/
theorem apply_global_decay_spec (s s' : Engine) (rep : DecayReport)
    (hnd : (s.ratings.map Prod.fst).Nodup)
    (h : apply_global_decay s none = Except.ok (s', rep)) :
    rep.days_applied =
      (match s.last_decay_date with | some d => s.current_date - d | none => 30) ∧
    rep.decay_multiplier = (s.decay_rate ^ ((1 : ℝ)/365.25)) ^ rep.days_applied ∧
    s'.current_date = s.current_date ∧
    s'.last_decay_date = some s.current_date ∧
    (∀ p v, 3 ≤ (dlookup s.matches_played p).getD 0 →
      dlookup s.ratings p = some v →
      dlookup s'.ratings p = some (v * rep.decay_multiplier)) ∧
    (∀ p, 3 ≤ (dlookup s.matches_played p).getD 0 → (dlookup s.ratings p).isSome →
      dlookup s'.surfaces p =
        (dlookup s.surfaces p).map (mapvals (· * rep.decay_multiplier)) ∧
      dlookup s'.levels p =
        (dlookup s.levels p).map (mapvals (· * rep.decay_multiplier)) ∧
      dlookup s'.combined p =
        (dlookup s.combined p).map (mapvals (· * rep.decay_multiplier))) ∧
    (∀ p, (dlookup s.matches_played p).getD 0 < 3 →
      dlookup s'.ratings p = dlookup s.ratings p ∧
      dlookup s'.surfaces p = dlookup s.surfaces p ∧
      dlookup s'.levels p = dlookup s.levels p ∧
      dlookup s'.combined p = dlookup s.combined p) :=
  global_decay_lookup s s' rep hnd h

/-- Companion evaluation for C2 at `decayWitnessEngine`: the hypotheses hold
and the decayed rating of "P" is `1500 * ((1/2)^(1/365.25))^1`, with the
clock facts as claimed. -/
theorem apply_global_decay_spec_witness :
    (decayWitnessEngine.ratings.map Prod.fst).Nodup ∧
    (apply_global_decay decayWitnessEngine none).map
        (fun es => (es.1.current_date, es.1.last_decay_date,
          dlookup es.1.ratings "P", es.2.days_applied)) =
      Except.ok ((10 : ℤ), some (10 : ℤ),
        some ((1500 : ℝ) * ((1/2 : ℝ) ^ ((1 : ℝ)/365.25)) ^ ((1 : ℤ))), (1 : ℤ)) := by
  have hnd : (decayWitnessEngine.ratings.map Prod.fst).Nodup := by
    simp [decayWitnessEngine]
  have h := apply_global_decay_spec decayWitnessEngine
    (apply_decay_core decayWitnessEngine).1 (apply_decay_core decayWitnessEngine).2 hnd rfl
  obtain ⟨h1, h2, h3, h4, h5, _, _⟩ := h
  have hv : dlookup decayWitnessEngine.ratings "P" = some (1500 : ℝ) := by
    simp [decayWitnessEngine, dlookup]
  have h3m : (3 : ℕ) ≤ (dlookup decayWitnessEngine.matches_played "P").getD 0 := by
    simp [decayWitnessEngine, dlookup]
  have hP := h5 "P" 1500 h3m hv
  refine ⟨hnd, ?_⟩
  have he : apply_global_decay decayWitnessEngine none =
      Except.ok ((apply_decay_core decayWitnessEngine).1,
        (apply_decay_core decayWitnessEngine).2) := rfl
  rw [he]
  simp only [Except.map]
  rw [Except.ok.injEq, Prod.mk.injEq, Prod.mk.injEq, Prod.mk.injEq]
  have hdays : (apply_decay_core decayWitnessEngine).2.days_applied = 1 := by
    rw [h1]
    norm_num [decayWitnessEngine]
  refine ⟨h3, h4, ?_, hdays⟩
  rw [hP, h2, hdays]
  norm_num [decayWitnessEngine]

/-- C8 (amended): with a non-negative decay rate below 1 and a strictly
positive day gap, every tracked competitor with `matchesPlayed >= 3` and a
strictly positive rating strictly decreases under `apply_global_decay`
(ratings that are zero or negative do not decrease — see the counterexample),
and every competitor below the match threshold is untouched. -/
theorem apply_global_decay_strict_decrease (s s' : Engine) (rep : DecayReport)
    (hnd : (s.ratings.map Prod.fst).Nodup)
    (hr0 : 0 ≤ s.decay_rate) (hr1 : s.decay_rate < 1)
    (d : ℤ) (hlast : s.last_decay_date = some d)
    (hdays : 0 < s.current_date - d)
    (h : apply_global_decay s none = Except.ok (s', rep)) :
    (∀ p v, 3 ≤ (dlookup s.matches_played p).getD 0 →
      dlookup s.ratings p = some v → 0 < v →
      dlookup s'.ratings p = some (v * rep.decay_multiplier) ∧
      v * rep.decay_multiplier < v) ∧
    (∀ p, (dlookup s.matches_played p).getD 0 < 3 →
      dlookup s'.ratings p = dlookup s.ratings p ∧
      dlookup s'.surfaces p = dlookup s.surfaces p ∧
      dlookup s'.levels p = dlookup s.levels p ∧
      dlookup s'.combined p = dlookup s.combined p) := by
  obtain ⟨h1, h2, _, _, h5, _, h7⟩ := global_decay_lookup s s' rep hnd h
  have hdd : rep.days_applied = s.current_date - d := by
    rw [h1, hlast]
  have hmlt : rep.decay_multiplier < 1 := by
    rw [h2, hdd]
    rcases eq_or_lt_of_le hr0 with hz | hpos
    · rw [← hz, Real.zero_rpow (by norm_num : ((1 : ℝ)/365.25) ≠ 0),
        zero_zpow _ (by omega : s.current_date - d ≠ 0)]
      norm_num
    · have hd1 : s.decay_rate ^ ((1 : ℝ)/365.25) < 1 :=
        Real.rpow_lt_one hr0 hr1 (by norm_num)
      have hd0 : 0 < s.decay_rate ^ ((1 : ℝ)/365.25) := Real.rpow_pos_of_pos hpos _
      rw [show s.current_date - d = (((s.current_date - d).toNat : ℕ) : ℤ) from
        (Int.toNat_of_nonneg (le_of_lt hdays)).symm, zpow_natCast]
      exact pow_lt_one₀ (le_of_lt hd0) hd1 (by omega)
  constructor
  · intro p v h3 hv hvpos
    refine ⟨h5 p v h3 hv, ?_⟩
    calc v * rep.decay_multiplier < v * 1 := mul_lt_mul_of_pos_left hmlt hvpos
      _ = v := mul_one v
  · exact h7

/-- Counterexample to C8 as stated: at `zeroRatingEngine` all the claim's
premises hold (`decayRate = 1/2 < 1`, one-day gap, 3 matches played, "P"
previously tracked), yet "P"'s rating after `apply_global_decay` is still 0 —
it did not strictly decrease. -/
theorem apply_global_decay_not_strict_at_zero :
    zeroRatingEngine.decay_rate < 1 ∧
    zeroRatingEngine.last_decay_date = some 0 ∧
    (0 : ℤ) < zeroRatingEngine.current_date - 0 ∧
    (3 : ℕ) ≤ (dlookup zeroRatingEngine.matches_played "P").getD 0 ∧
    dlookup zeroRatingEngine.ratings "P" = some (0 : ℝ) ∧
    (apply_global_decay zeroRatingEngine none).map (fun es => dlookup es.1.ratings "P") =
      Except.ok (some (0 : ℝ)) := by
  refine ⟨by norm_num [zeroRatingEngine], rfl, by norm_num [zeroRatingEngine],
    by simp [zeroRatingEngine, dlookup], by simp [zeroRatingEngine, dlookup], ?_⟩
  have he : apply_global_decay zeroRatingEngine none =
      Except.ok ((apply_decay_core zeroRatingEngine).1,
        (apply_decay_core zeroRatingEngine).2) := rfl
  rw [he]
  simp only [Except.map]
  rw [Except.ok.injEq]
  simp [apply_decay_core, decay_player, zeroRatingEngine, dlookup, dset, apply_ite]

/-- Companion evaluation for C8 at `decayWitnessEngine` ("P" at 1500 > 0, a
one-day gap, decay rate 1/2): its rating strictly decreases. -/
theorem apply_global_decay_strict_decrease_witness :
    (decayWitnessEngine.ratings.map Prod.fst).Nodup ∧
    (0 : ℝ) ≤ decayWitnessEngine.decay_rate ∧ decayWitnessEngine.decay_rate < 1 ∧
    decayWitnessEngine.last_decay_date = some 9 ∧
    (0 : ℤ) < decayWitnessEngine.current_date - 9 ∧
    (dlookup (apply_decay_core decayWitnessEngine).1.ratings "P" =
      some ((1500 : ℝ) * (apply_decay_core decayWitnessEngine).2.decay_multiplier) ∧
     (1500 : ℝ) * (apply_decay_core decayWitnessEngine).2.decay_multiplier < 1500) := by
  have hnd : (decayWitnessEngine.ratings.map Prod.fst).Nodup := by
    simp [decayWitnessEngine]
  refine ⟨hnd, by norm_num [decayWitnessEngine], by norm_num [decayWitnessEngine],
    rfl, by norm_num [decayWitnessEngine], ?_⟩
  have h := apply_global_decay_strict_decrease decayWitnessEngine
    (apply_decay_core decayWitnessEngine).1 (apply_decay_core decayWitnessEngine).2
    hnd (by norm_num [decayWitnessEngine]) (by norm_num [decayWitnessEngine])
    9 rfl (by norm_num [decayWitnessEngine]) rfl
  exact h.1 "P" 1500 (by simp [decayWitnessEngine, dlookup])
    (by simp [decayWitnessEngine, dlookup]) (by norm_num)

/-- Clock bookkeeping of the decay body: the loop never touches the clock,
so the body reports `currentDate` unchanged and stamps it as the new
`lastDecayApplicationDate`. -/
theorem apply_decay_core_dates (s : Engine) :
    (apply_decay_core s).1.current_date = s.current_date ∧
    (apply_decay_core s).1.last_decay_date = some s.current_date := by
  refine ⟨?_, ?_⟩
  · exact (fold_decay_fields ((s.decay_rate ^ ((1 : ℝ)/365.25)) ^
      (match s.last_decay_date with | some d => s.current_date - d | none => 30))
      (s.ratings.map Prod.fst) (s, 0, 0, 0)).2.1
  · exact congrArg some ((fold_decay_fields ((s.decay_rate ^ ((1 : ℝ)/365.25)) ^
      (match s.last_decay_date with | some d => s.current_date - d | none => 30))
      (s.ratings.map Prod.fst) (s, 0, 0, 0)).2.1)

/-- C6: an `apply_global_decay` call with a (well-formed) `referenceDate`
override restores `currentDate` to its pre-call value after the call, while
`lastDecayApplicationDate` ends up equal to the supplied reference date (the
`currentDate` in effect during the call). -/
theorem apply_global_decay_reference_restore (s : Engine) (ref : DateInput) (z : ℤ)
    (hz : parseDateInput ref = some z) :
    (apply_global_decay s (some ref)).map
        (fun es => (es.1.current_date, es.1.last_decay_date)) =
      Except.ok (s.current_date, some z) := by
  have hset : set_current_date s ref = Except.ok { s with current_date := z } := by
    rw [set_current_date_parse s ref, hz]
  simp only [apply_global_decay, hset, Except.map]
  rw [Except.ok.injEq, Prod.mk.injEq]
  exact ⟨rfl, (apply_decay_core_dates { s with current_date := z }).2⟩

/-- Companion evaluation for C6: overriding with day 5 at
`decayWitnessEngine` (clock at day 10) leaves the clock at 10 afterwards but
stamps day 5 as the last decay application date. -/
theorem apply_global_decay_reference_restore_witness :
    parseDateInput (DateInput.dt 5) = some 5 ∧
    (apply_global_decay decayWitnessEngine (some (DateInput.dt 5))).map
        (fun es => (es.1.current_date, es.1.last_decay_date)) =
      Except.ok ((10 : ℤ), some (5 : ℤ)) :=
  ⟨rfl, apply_global_decay_reference_restore decayWitnessEngine (DateInput.dt 5) 5 rfl⟩

/-! ### Characterising `ensure_player_initialized` -/

theorem dlookup2_eq_bind {α : Type} (l : List (String × List (String × α))) (p k : String) :
    (dlookup l p).bind (fun inner => dlookup inner k) = dlookup2 l p k := by
  cases h : dlookup l p <;> simp [dlookup2, h]

theorem ensure_overall_frame (t : Engine) (n : String) :
    (ensure_overall t n).surfaces = t.surfaces ∧
    (ensure_overall t n).matches_by_surface = t.matches_by_surface ∧
    (ensure_overall t n).levels = t.levels ∧
    (ensure_overall t n).matches_by_level = t.matches_by_level ∧
    (ensure_overall t n).combined = t.combined ∧
    (ensure_overall t n).matches_combined = t.matches_combined ∧
    (ensure_overall t n).default_rating = t.default_rating := by
  rw [ensure_overall]
  split <;> exact ⟨rfl, rfl, rfl, rfl, rfl, rfl, rfl⟩

theorem ensure_surface_outer_frame (t : Engine) (n : String) :
    (ensure_surface_outer t n).ratings = t.ratings ∧
    (ensure_surface_outer t n).matches_played = t.matches_played ∧
    (ensure_surface_outer t n).levels = t.levels ∧
    (ensure_surface_outer t n).matches_by_level = t.matches_by_level ∧
    (ensure_surface_outer t n).combined = t.combined ∧
    (ensure_surface_outer t n).matches_combined = t.matches_combined ∧
    (ensure_surface_outer t n).default_rating = t.default_rating := by
  rw [ensure_surface_outer]
  split <;> exact ⟨rfl, rfl, rfl, rfl, rfl, rfl, rfl⟩

theorem ensure_surface_inner_frame (t : Engine) (n : String) (su : Option String) :
    (ensure_surface_inner t n su).ratings = t.ratings ∧
    (ensure_surface_inner t n su).matches_played = t.matches_played ∧
    (ensure_surface_inner t n su).levels = t.levels ∧
    (ensure_surface_inner t n su).matches_by_level = t.matches_by_level ∧
    (ensure_surface_inner t n su).combined = t.combined ∧
    (ensure_surface_inner t n su).matches_combined = t.matches_combined ∧
    (ensure_surface_inner t n su).default_rating = t.default_rating := by
  rw [ensure_surface_inner]
  split <;> exact ⟨rfl, rfl, rfl, rfl, rfl, rfl, rfl⟩

theorem ensure_level_outer_frame (t : Engine) (n : String) :
    (ensure_level_outer t n).ratings = t.ratings ∧
    (ensure_level_outer t n).matches_played = t.matches_played ∧
    (ensure_level_outer t n).surfaces = t.surfaces ∧
    (ensure_level_outer t n).matches_by_surface = t.matches_by_surface ∧
    (ensure_level_outer t n).combined = t.combined ∧
    (ensure_level_outer t n).matches_combined = t.matches_combined ∧
    (ensure_level_outer t n).default_rating = t.default_rating := by
  rw [ensure_level_outer]
  split <;> exact ⟨rfl, rfl, rfl, rfl, rfl, rfl, rfl⟩

theorem ensure_level_inner_frame (t : Engine) (n : String) (le : Option String) :
    (ensure_level_inner t n le).ratings = t.ratings ∧
    (ensure_level_inner t n le).matches_played = t.matches_played ∧
    (ensure_level_inner t n le).surfaces = t.surfaces ∧
    (ensure_level_inner t n le).matches_by_surface = t.matches_by_surface ∧
    (ensure_level_inner t n le).combined = t.combined ∧
    (ensure_level_inner t n le).matches_combined = t.matches_combined ∧
    (ensure_level_inner t n le).default_rating = t.default_rating := by
  rw [ensure_level_inner]
  split <;> exact ⟨rfl, rfl, rfl, rfl, rfl, rfl, rfl⟩

theorem ensure_combined_outer_frame (t : Engine) (n : String) :
    (ensure_combined_outer t n).ratings = t.ratings ∧
    (ensure_combined_outer t n).matches_played = t.matches_played ∧
    (ensure_combined_outer t n).surfaces = t.surfaces ∧
    (ensure_combined_outer t n).matches_by_surface = t.matches_by_surface ∧
    (ensure_combined_outer t n).levels = t.levels ∧
    (ensure_combined_outer t n).matches_by_level = t.matches_by_level ∧
    (ensure_combined_outer t n).default_rating = t.default_rating := by
  rw [ensure_combined_outer]
  split <;> exact ⟨rfl, rfl, rfl, rfl, rfl, rfl, rfl⟩

theorem ensure_combined_inner_frame (t : Engine) (n : String) (su le : Option String) :
    (ensure_combined_inner t n su le).ratings = t.ratings ∧
    (ensure_combined_inner t n su le).matches_played = t.matches_played ∧
    (ensure_combined_inner t n su le).surfaces = t.surfaces ∧
    (ensure_combined_inner t n su le).matches_by_surface = t.matches_by_surface ∧
    (ensure_combined_inner t n su le).levels = t.levels ∧
    (ensure_combined_inner t n su le).matches_by_level = t.matches_by_level ∧
    (ensure_combined_inner t n su le).default_rating = t.default_rating := by
  rw [ensure_combined_inner]
  split <;> exact ⟨rfl, rfl, rfl, rfl, rfl, rfl, rfl⟩

theorem ensure_overall_ratings (t : Engine) (n p : String) :
    dlookup (ensure_overall t n).ratings p =
      if p = n ∧ (dlookup t.ratings n).isNone then some t.default_rating
      else dlookup t.ratings p := by
  rw [ensure_overall]
  by_cases h : (dlookup t.ratings n).isNone
  · rw [if_pos h]
    by_cases hp : p = n
    · subst hp
      rw [if_pos ⟨rfl, h⟩]
      exact dlookup_dset_self _ _ _
    · rw [if_neg (fun hc => hp hc.1)]
      exact dlookup_dset_ne _ _ _ _ hp
  · rw [if_neg h, if_neg (fun hc => h hc.2)]

theorem ensure_overall_matches (t : Engine) (n p : String) :
    dlookup (ensure_overall t n).matches_played p =
      if p = n ∧ (dlookup t.ratings n).isNone then some 0
      else dlookup t.matches_played p := by
  rw [ensure_overall]
  by_cases h : (dlookup t.ratings n).isNone
  · rw [if_pos h]
    by_cases hp : p = n
    · subst hp
      rw [if_pos ⟨rfl, h⟩]
      exact dlookup_dset_self _ _ _
    · rw [if_neg (fun hc => hp hc.1)]
      exact dlookup_dset_ne _ _ _ _ hp
  · rw [if_neg h, if_neg (fun hc => h hc.2)]

theorem ensure_surface_outer_surfaces (t : Engine) (n p k : String) :
    dlookup2 (ensure_surface_outer t n).surfaces p k = dlookup2 t.surfaces p k := by
  rw [ensure_surface_outer]
  by_cases h : (dlookup t.surfaces n).isNone
  · rw [if_pos h]
    by_cases hp : p = n
    · subst hp
      rw [dlookup2, dlookup2, dlookup_dset_self]
      rw [Option.isNone_iff_eq_none] at h
      rw [h]
      rfl
    · rw [dlookup2, dlookup2, dlookup_dset_ne _ _ _ _ hp]
  · rw [if_neg h]

theorem ensure_surface_outer_msurf (t : Engine) (n p k : String) :
    dlookup2 (ensure_surface_outer t n).matches_by_surface p k =
      if p = n ∧ (dlookup t.surfaces n).isNone then none
      else dlookup2 t.matches_by_surface p k := by
  rw [ensure_surface_outer]
  by_cases h : (dlookup t.surfaces n).isNone
  · rw [if_pos h]
    by_cases hp : p = n
    · subst hp
      rw [if_pos ⟨rfl, h⟩, dlookup2, dlookup_dset_self]
      rfl
    · rw [if_neg (fun hc => hp hc.1), dlookup2, dlookup2, dlookup_dset_ne _ _ _ _ hp]
  · rw [if_neg h, if_neg (fun hc => h hc.2)]

theorem ensure_surface_inner_surfaces (t : Engine) (n : String) (su : Option String)
    (p k : String) :
    dlookup2 (ensure_surface_inner t n su).surfaces p k =
      if p = n ∧ otruthy su = true ∧ k = oval su ∧ (dlookup2 t.surfaces n (oval su)).isNone
      then some t.default_rating
      else dlookup2 t.surfaces p k := by
  rw [ensure_surface_inner]
  by_cases h : otruthy su = true ∧ (dlookup2 t.surfaces n (oval su)).isNone
  · rw [if_pos h]
    by_cases hp : p = n
    · subst hp
      by_cases hk : k = oval su
      · subst hk
        rw [if_pos ⟨rfl, h.1, rfl, h.2⟩, dlookup2, dlookup_dset_self]
        simp only [Option.getD_some]
        rw [dlookup_dset_self]
      · rw [if_neg (fun hc => hk hc.2.2.1), dlookup2, dlookup_dset_self]
        simp only [Option.getD_some]
        rw [dlookup_dset_ne _ _ _ _ hk]
        rfl
    · rw [if_neg (fun hc => hp hc.1), dlookup2, dlookup2, dlookup_dset_ne _ _ _ _ hp]
  · rw [if_neg h, if_neg (fun hc => h ⟨hc.2.1, hc.2.2.2⟩)]

theorem ensure_surface_inner_msurf (t : Engine) (n : String) (su : Option String)
    (p k : String) :
    dlookup2 (ensure_surface_inner t n su).matches_by_surface p k =
      if p = n ∧ otruthy su = true ∧ k = oval su ∧ (dlookup2 t.surfaces n (oval su)).isNone
      then some 0
      else dlookup2 t.matches_by_surface p k := by
  rw [ensure_surface_inner]
  by_cases h : otruthy su = true ∧ (dlookup2 t.surfaces n (oval su)).isNone
  · rw [if_pos h]
    by_cases hp : p = n
    · subst hp
      by_cases hk : k = oval su
      · subst hk
        rw [if_pos ⟨rfl, h.1, rfl, h.2⟩, dlookup2, dlookup_dset_self]
        simp only [Option.getD_some]
        rw [dlookup_dset_self]
      · rw [if_neg (fun hc => hk hc.2.2.1), dlookup2, dlookup_dset_self]
        simp only [Option.getD_some]
        rw [dlookup_dset_ne _ _ _ _ hk]
        rfl
    · rw [if_neg (fun hc => hp hc.1), dlookup2, dlookup2, dlookup_dset_ne _ _ _ _ hp]
  · rw [if_neg h, if_neg (fun hc => h ⟨hc.2.1, hc.2.2.2⟩)]

theorem ensure_level_outer_levels (t : Engine) (n p k : String) :
    dlookup2 (ensure_level_outer t n).levels p k = dlookup2 t.levels p k := by
  rw [ensure_level_outer]
  by_cases h : (dlookup t.levels n).isNone
  · rw [if_pos h]
    by_cases hp : p = n
    · subst hp
      rw [dlookup2, dlookup2, dlookup_dset_self]
      rw [Option.isNone_iff_eq_none] at h
      rw [h]
      rfl
    · rw [dlookup2, dlookup2, dlookup_dset_ne _ _ _ _ hp]
  · rw [if_neg h]

theorem ensure_level_outer_mlevel (t : Engine) (n p k : String) :
    dlookup2 (ensure_level_outer t n).matches_by_level p k =
      if p = n ∧ (dlookup t.levels n).isNone then none
      else dlookup2 t.matches_by_level p k := by
  rw [ensure_level_outer]
  by_cases h : (dlookup t.levels n).isNone
  · rw [if_pos h]
    by_cases hp : p = n
    · subst hp
      rw [if_pos ⟨rfl, h⟩, dlookup2, dlookup_dset_self]
      rfl
    · rw [if_neg (fun hc => hp hc.1), dlookup2, dlookup2, dlookup_dset_ne _ _ _ _ hp]
  · rw [if_neg h, if_neg (fun hc => h hc.2)]

theorem ensure_level_inner_levels (t : Engine) (n : String) (le : Option String)
    (p k : String) :
    dlookup2 (ensure_level_inner t n le).levels p k =
      if p = n ∧ otruthy le = true ∧ k = oval le ∧ (dlookup2 t.levels n (oval le)).isNone
      then some t.default_rating
      else dlookup2 t.levels p k := by
  rw [ensure_level_inner]
  by_cases h : otruthy le = true ∧ (dlookup2 t.levels n (oval le)).isNone
  · rw [if_pos h]
    by_cases hp : p = n
    · subst hp
      by_cases hk : k = oval le
      · subst hk
        rw [if_pos ⟨rfl, h.1, rfl, h.2⟩, dlookup2, dlookup_dset_self]
        simp only [Option.getD_some]
        rw [dlookup_dset_self]
      · rw [if_neg (fun hc => hk hc.2.2.1), dlookup2, dlookup_dset_self]
        simp only [Option.getD_some]
        rw [dlookup_dset_ne _ _ _ _ hk]
        rfl
    · rw [if_neg (fun hc => hp hc.1), dlookup2, dlookup2, dlookup_dset_ne _ _ _ _ hp]
  · rw [if_neg h, if_neg (fun hc => h ⟨hc.2.1, hc.2.2.2⟩)]

theorem ensure_level_inner_mlevel (t : Engine) (n : String) (le : Option String)
    (p k : String) :
    dlookup2 (ensure_level_inner t n le).matches_by_level p k =
      if p = n ∧ otruthy le = true ∧ k = oval le ∧ (dlookup2 t.levels n (oval le)).isNone
      then some 0
      else dlookup2 t.matches_by_level p k := by
  rw [ensure_level_inner]
  by_cases h : otruthy le = true ∧ (dlookup2 t.levels n (oval le)).isNone
  · rw [if_pos h]
    by_cases hp : p = n
    · subst hp
      by_cases hk : k = oval le
      · subst hk
        rw [if_pos ⟨rfl, h.1, rfl, h.2⟩, dlookup2, dlookup_dset_self]
        simp only [Option.getD_some]
        rw [dlookup_dset_self]
      · rw [if_neg (fun hc => hk hc.2.2.1), dlookup2, dlookup_dset_self]
        simp only [Option.getD_some]
        rw [dlookup_dset_ne _ _ _ _ hk]
        rfl
    · rw [if_neg (fun hc => hp hc.1), dlookup2, dlookup2, dlookup_dset_ne _ _ _ _ hp]
  · rw [if_neg h, if_neg (fun hc => h ⟨hc.2.1, hc.2.2.2⟩)]

theorem ensure_combined_outer_combined (t : Engine) (n p k : String) :
    dlookup2 (ensure_combined_outer t n).combined p k = dlookup2 t.combined p k := by
  rw [ensure_combined_outer]
  by_cases h : (dlookup t.combined n).isNone
  · rw [if_pos h]
    by_cases hp : p = n
    · subst hp
      rw [dlookup2, dlookup2, dlookup_dset_self]
      rw [Option.isNone_iff_eq_none] at h
      rw [h]
      rfl
    · rw [dlookup2, dlookup2, dlookup_dset_ne _ _ _ _ hp]
  · rw [if_neg h]

theorem ensure_combined_outer_mcomb (t : Engine) (n p k : String) :
    dlookup2 (ensure_combined_outer t n).matches_combined p k =
      if p = n ∧ (dlookup t.combined n).isNone then none
      else dlookup2 t.matches_combined p k := by
  rw [ensure_combined_outer]
  by_cases h : (dlookup t.combined n).isNone
  · rw [if_pos h]
    by_cases hp : p = n
    · subst hp
      rw [if_pos ⟨rfl, h⟩, dlookup2, dlookup_dset_self]
      rfl
    · rw [if_neg (fun hc => hp hc.1), dlookup2, dlookup2, dlookup_dset_ne _ _ _ _ hp]
  · rw [if_neg h, if_neg (fun hc => h hc.2)]

theorem ensure_combined_inner_combined (t : Engine) (n : String) (su le : Option String)
    (p k : String) :
    dlookup2 (ensure_combined_inner t n su le).combined p k =
      if p = n ∧ otruthy su = true ∧ otruthy le = true ∧
          k = combinedKey (oval su) (oval le) ∧
          (dlookup2 t.combined n (combinedKey (oval su) (oval le))).isNone
      then some t.default_rating
      else dlookup2 t.combined p k := by
  rw [ensure_combined_inner]
  by_cases h : otruthy su = true ∧ otruthy le = true ∧
      (dlookup2 t.combined n (combinedKey (oval su) (oval le))).isNone
  · rw [if_pos h]
    by_cases hp : p = n
    · subst hp
      by_cases hk : k = combinedKey (oval su) (oval le)
      · subst hk
        rw [if_pos ⟨rfl, h.1, h.2.1, rfl, h.2.2⟩, dlookup2, dlookup_dset_self]
        simp only [Option.getD_some]
        rw [dlookup_dset_self]
      · rw [if_neg (fun hc => hk hc.2.2.2.1), dlookup2, dlookup_dset_self]
        simp only [Option.getD_some]
        rw [dlookup_dset_ne _ _ _ _ hk]
        rfl
    · rw [if_neg (fun hc => hp hc.1), dlookup2, dlookup2, dlookup_dset_ne _ _ _ _ hp]
  · rw [if_neg h, if_neg (fun hc => h ⟨hc.2.1, hc.2.2.1, hc.2.2.2.2⟩)]

theorem ensure_combined_inner_mcomb (t : Engine) (n : String) (su le : Option String)
    (p k : String) :
    dlookup2 (ensure_combined_inner t n su le).matches_combined p k =
      if p = n ∧ otruthy su = true ∧ otruthy le = true ∧
          k = combinedKey (oval su) (oval le) ∧
          (dlookup2 t.combined n (combinedKey (oval su) (oval le))).isNone
      then some 0
      else dlookup2 t.matches_combined p k := by
  rw [ensure_combined_inner]
  by_cases h : otruthy su = true ∧ otruthy le = true ∧
      (dlookup2 t.combined n (combinedKey (oval su) (oval le))).isNone
  · rw [if_pos h]
    by_cases hp : p = n
    · subst hp
      by_cases hk : k = combinedKey (oval su) (oval le)
      · subst hk
        rw [if_pos ⟨rfl, h.1, h.2.1, rfl, h.2.2⟩, dlookup2, dlookup_dset_self]
        simp only [Option.getD_some]
        rw [dlookup_dset_self]
      · rw [if_neg (fun hc => hk hc.2.2.2.1), dlookup2, dlookup_dset_self]
        simp only [Option.getD_some]
        rw [dlookup_dset_ne _ _ _ _ hk]
        rfl
    · rw [if_neg (fun hc => hp hc.1), dlookup2, dlookup2, dlookup_dset_ne _ _ _ _ hp]
  · rw [if_neg h, if_neg (fun hc => h ⟨hc.2.1, hc.2.2.1, hc.2.2.2.2⟩)]

theorem ensure_ratings_lookup (s : Engine) (n : String) (su le : Option String) (p : String) :
    dlookup (ensure_player_initialized s n su le).ratings p =
      if p = n ∧ (dlookup s.ratings n).isNone then some s.default_rating
      else dlookup s.ratings p := by
  rw [ensure_player_initialized,
    (ensure_combined_inner_frame _ _ _ _).1, (ensure_combined_outer_frame _ _).1,
    (ensure_level_inner_frame _ _ _).1, (ensure_level_outer_frame _ _).1,
    (ensure_surface_inner_frame _ _ _).1, (ensure_surface_outer_frame _ _).1,
    ensure_overall_ratings]

theorem ensure_matches_lookup (s : Engine) (n : String) (su le : Option String) (p : String) :
    dlookup (ensure_player_initialized s n su le).matches_played p =
      if p = n ∧ (dlookup s.ratings n).isNone then some 0
      else dlookup s.matches_played p := by
  rw [ensure_player_initialized,
    (ensure_combined_inner_frame _ _ _ _).2.1, (ensure_combined_outer_frame _ _).2.1,
    (ensure_level_inner_frame _ _ _).2.1, (ensure_level_outer_frame _ _).2.1,
    (ensure_surface_inner_frame _ _ _).2.1, (ensure_surface_outer_frame _ _).2.1,
    ensure_overall_matches]

theorem ensure_surfaces_lookup (s : Engine) (n : String) (su le : Option String)
    (p k : String) :
    dlookup2 (ensure_player_initialized s n su le).surfaces p k =
      if p = n ∧ otruthy su = true ∧ k = oval su ∧ (dlookup2 s.surfaces n (oval su)).isNone
      then some s.default_rating
      else dlookup2 s.surfaces p k := by
  rw [ensure_player_initialized,
    (ensure_combined_inner_frame _ _ _ _).2.2.1, (ensure_combined_outer_frame _ _).2.2.1,
    (ensure_level_inner_frame _ _ _).2.2.1, (ensure_level_outer_frame _ _).2.2.1,
    ensure_surface_inner_surfaces]
  simp only [ensure_surface_outer_surfaces,
    (ensure_surface_outer_frame _ _).2.2.2.2.2.2, (ensure_overall_frame _ _).2.2.2.2.2.2,
    (ensure_overall_frame s n).1]

theorem ensure_msurf_lookup (s : Engine) (n : String) (su le : Option String)
    (p k : String) :
    dlookup2 (ensure_player_initialized s n su le).matches_by_surface p k =
      if p = n ∧ otruthy su = true ∧ k = oval su ∧ (dlookup2 s.surfaces n (oval su)).isNone
      then some 0
      else if p = n ∧ (dlookup s.surfaces n).isNone then none
      else dlookup2 s.matches_by_surface p k := by
  rw [ensure_player_initialized,
    (ensure_combined_inner_frame _ _ _ _).2.2.2.1, (ensure_combined_outer_frame _ _).2.2.2.1,
    (ensure_level_inner_frame _ _ _).2.2.2.1, (ensure_level_outer_frame _ _).2.2.2.1,
    ensure_surface_inner_msurf]
  simp only [ensure_surface_outer_surfaces, ensure_surface_outer_msurf,
    (ensure_overall_frame s n).1, (ensure_overall_frame s n).2.1]

theorem ensure_levels_lookup (s : Engine) (n : String) (su le : Option String)
    (p k : String) :
    dlookup2 (ensure_player_initialized s n su le).levels p k =
      if p = n ∧ otruthy le = true ∧ k = oval le ∧ (dlookup2 s.levels n (oval le)).isNone
      then some s.default_rating
      else dlookup2 s.levels p k := by
  rw [ensure_player_initialized,
    (ensure_combined_inner_frame _ _ _ _).2.2.2.2.1, (ensure_combined_outer_frame _ _).2.2.2.2.1,
    ensure_level_inner_levels]
  simp only [ensure_level_outer_levels,
    (ensure_level_outer_frame _ _).2.2.2.2.2.2,
    (ensure_surface_inner_frame _ _ _).2.2.2.2.2.2, (ensure_surface_outer_frame _ _).2.2.2.2.2.2,
    (ensure_overall_frame _ _).2.2.2.2.2.2,
    (ensure_surface_inner_frame _ _ _).2.2.1, (ensure_surface_outer_frame _ _).2.2.1,
    (ensure_overall_frame s n).2.2.1]

theorem ensure_mlevel_lookup (s : Engine) (n : String) (su le : Option String)
    (p k : String) :
    dlookup2 (ensure_player_initialized s n su le).matches_by_level p k =
      if p = n ∧ otruthy le = true ∧ k = oval le ∧ (dlookup2 s.levels n (oval le)).isNone
      then some 0
      else if p = n ∧ (dlookup s.levels n).isNone then none
      else dlookup2 s.matches_by_level p k := by
  rw [ensure_player_initialized,
    (ensure_combined_inner_frame _ _ _ _).2.2.2.2.2.1,
    (ensure_combined_outer_frame _ _).2.2.2.2.2.1,
    ensure_level_inner_mlevel]
  simp only [ensure_level_outer_levels, ensure_level_outer_mlevel,
    (ensure_surface_inner_frame _ _ _).2.2.1, (ensure_surface_outer_frame _ _).2.2.1,
    (ensure_overall_frame s n).2.2.1,
    (ensure_surface_inner_frame _ _ _).2.2.2.1, (ensure_surface_outer_frame _ _).2.2.2.1,
    (ensure_overall_frame s n).2.2.2.1]

theorem ensure_combined_lookup (s : Engine) (n : String) (su le : Option String)
    (p k : String) :
    dlookup2 (ensure_player_initialized s n su le).combined p k =
      if p = n ∧ otruthy su = true ∧ otruthy le = true ∧
          k = combinedKey (oval su) (oval le) ∧
          (dlookup2 s.combined n (combinedKey (oval su) (oval le))).isNone
      then some s.default_rating
      else dlookup2 s.combined p k := by
  rw [ensure_player_initialized, ensure_combined_inner_combined]
  simp only [ensure_combined_outer_combined,
    (ensure_combined_outer_frame _ _).2.2.2.2.2.2,
    (ensure_level_inner_frame _ _ _).2.2.2.2.2.2, (ensure_level_outer_frame _ _).2.2.2.2.2.2,
    (ensure_surface_inner_frame _ _ _).2.2.2.2.2.2, (ensure_surface_outer_frame _ _).2.2.2.2.2.2,
    (ensure_overall_frame _ _).2.2.2.2.2.2,
    (ensure_level_inner_frame _ _ _).2.2.2.2.1, (ensure_level_outer_frame _ _).2.2.2.2.1,
    (ensure_surface_inner_frame _ _ _).2.2.2.2.1, (ensure_surface_outer_frame _ _).2.2.2.2.1,
    (ensure_overall_frame s n).2.2.2.2.1]

theorem ensure_mcomb_lookup (s : Engine) (n : String) (su le : Option String)
    (p k : String) :
    dlookup2 (ensure_player_initialized s n su le).matches_combined p k =
      if p = n ∧ otruthy su = true ∧ otruthy le = true ∧
          k = combinedKey (oval su) (oval le) ∧
          (dlookup2 s.combined n (combinedKey (oval su) (oval le))).isNone
      then some 0
      else if p = n ∧ (dlookup s.combined n).isNone then none
      else dlookup2 s.matches_combined p k := by
  rw [ensure_player_initialized, ensure_combined_inner_mcomb]
  simp only [ensure_combined_outer_combined, ensure_combined_outer_mcomb,
    (ensure_level_inner_frame _ _ _).2.2.2.2.1, (ensure_level_outer_frame _ _).2.2.2.2.1,
    (ensure_surface_inner_frame _ _ _).2.2.2.2.1, (ensure_surface_outer_frame _ _).2.2.2.2.1,
    (ensure_overall_frame s n).2.2.2.2.1,
    (ensure_level_inner_frame _ _ _).2.2.2.2.2.1, (ensure_level_outer_frame _ _).2.2.2.2.2.1,
    (ensure_surface_inner_frame _ _ _).2.2.2.2.2.1, (ensure_surface_outer_frame _ _).2.2.2.2.2.1,
    (ensure_overall_frame s n).2.2.2.2.2.1]

theorem dlookup2_outer_none {α : Type} (l : List (String × List (String × α)))
    (p k : String) (h : dlookup l p = none) : dlookup2 l p k = none := by
  rw [dlookup2, h]
  rfl

theorem ensure_default (s : Engine) (n : String) (su le : Option String) :
    (ensure_player_initialized s n su le).default_rating = s.default_rating := by
  rw [ensure_player_initialized,
    (ensure_combined_inner_frame _ _ _ _).2.2.2.2.2.2,
    (ensure_combined_outer_frame _ _).2.2.2.2.2.2,
    (ensure_level_inner_frame _ _ _).2.2.2.2.2.2, (ensure_level_outer_frame _ _).2.2.2.2.2.2,
    (ensure_surface_inner_frame _ _ _).2.2.2.2.2.2, (ensure_surface_outer_frame _ _).2.2.2.2.2.2,
    (ensure_overall_frame _ _).2.2.2.2.2.2]

theorem ensure_ratings_self (s : Engine) (n : String) (su le : Option String) :
    dlookup (ensure_player_initialized s n su le).ratings n =
      some ((dlookup s.ratings n).getD s.default_rating) := by
  cases hval : dlookup s.ratings n <;> simp [ensure_ratings_lookup, hval]

theorem ensure_surfaces_self (s : Engine) (n : String) (su le : Option String)
    (h : otruthy su = true) :
    dlookup2 (ensure_player_initialized s n su le).surfaces n (oval su) =
      some ((dlookup2 s.surfaces n (oval su)).getD s.default_rating) := by
  cases hval : dlookup2 s.surfaces n (oval su) <;>
    simp [ensure_surfaces_lookup, hval, h]

theorem ensure_levels_self (s : Engine) (n : String) (su le : Option String)
    (h : otruthy le = true) :
    dlookup2 (ensure_player_initialized s n su le).levels n (oval le) =
      some ((dlookup2 s.levels n (oval le)).getD s.default_rating) := by
  cases hval : dlookup2 s.levels n (oval le) <;>
    simp [ensure_levels_lookup, hval, h]

theorem ensure_combined_self (s : Engine) (n : String) (su le : Option String)
    (hsu : otruthy su = true) (hle : otruthy le = true) :
    dlookup2 (ensure_player_initialized s n su le).combined n
        (combinedKey (oval su) (oval le)) =
      some ((dlookup2 s.combined n (combinedKey (oval su) (oval le))).getD
        s.default_rating) := by
  cases hval : dlookup2 s.combined n (combinedKey (oval su) (oval le)) <;>
    simp [ensure_combined_lookup, hval, hsu, hle]

theorem ensure_matches_self (s : Engine) (n : String) (su le : Option String)
    (hc : (dlookup s.ratings n).isNone → dlookup s.matches_played n = none) :
    (dlookup (ensure_player_initialized s n su le).matches_played n).getD 0 =
      (dlookup s.matches_played n).getD 0 := by
  rw [ensure_matches_lookup]
  by_cases h : (dlookup s.ratings n).isNone
  · rw [if_pos ⟨rfl, h⟩, hc h]
    rfl
  · rw [if_neg (fun hcc => h hcc.2)]

theorem ensure_msurf_self (s : Engine) (n : String) (su le : Option String)
    (h : otruthy su = true)
    (hc : (dlookup2 s.surfaces n (oval su)).isNone →
      dlookup2 s.matches_by_surface n (oval su) = none) :
    (dlookup2 (ensure_player_initialized s n su le).matches_by_surface n (oval su)).getD 0 =
      (dlookup2 s.matches_by_surface n (oval su)).getD 0 := by
  rw [ensure_msurf_lookup]
  by_cases hin : (dlookup2 s.surfaces n (oval su)).isNone
  · rw [if_pos ⟨rfl, h, rfl, hin⟩, hc hin]
    rfl
  · rw [if_neg (fun hcc => hin hcc.2.2.2)]
    rw [if_neg (fun hcc => hin (by
      rw [dlookup2_outer_none s.surfaces n (oval su) (Option.isNone_iff_eq_none.mp hcc.2)]
      rfl))]

theorem ensure_mlevel_self (s : Engine) (n : String) (su le : Option String)
    (h : otruthy le = true)
    (hc : (dlookup2 s.levels n (oval le)).isNone →
      dlookup2 s.matches_by_level n (oval le) = none) :
    (dlookup2 (ensure_player_initialized s n su le).matches_by_level n (oval le)).getD 0 =
      (dlookup2 s.matches_by_level n (oval le)).getD 0 := by
  rw [ensure_mlevel_lookup]
  by_cases hin : (dlookup2 s.levels n (oval le)).isNone
  · rw [if_pos ⟨rfl, h, rfl, hin⟩, hc hin]
    rfl
  · rw [if_neg (fun hcc => hin hcc.2.2.2)]
    rw [if_neg (fun hcc => hin (by
      rw [dlookup2_outer_none s.levels n (oval le) (Option.isNone_iff_eq_none.mp hcc.2)]
      rfl))]

theorem ensure_mcomb_self (s : Engine) (n : String) (su le : Option String)
    (hsu : otruthy su = true) (hle : otruthy le = true)
    (hc : (dlookup2 s.combined n (combinedKey (oval su) (oval le))).isNone →
      dlookup2 s.matches_combined n (combinedKey (oval su) (oval le)) = none) :
    (dlookup2 (ensure_player_initialized s n su le).matches_combined n
        (combinedKey (oval su) (oval le))).getD 0 =
      (dlookup2 s.matches_combined n (combinedKey (oval su) (oval le))).getD 0 := by
  rw [ensure_mcomb_lookup]
  by_cases hin : (dlookup2 s.combined n (combinedKey (oval su) (oval le))).isNone
  · rw [if_pos ⟨rfl, hsu, hle, rfl, hin⟩, hc hin]
    rfl
  · rw [if_neg (fun hcc => hin hcc.2.2.2.2)]
    rw [if_neg (fun hcc => hin (by
      rw [dlookup2_outer_none s.combined n (combinedKey (oval su) (oval le))
        (Option.isNone_iff_eq_none.mp hcc.2)]
      rfl))]

/-! ### Lookup lemmas for the increment helpers of `update_rating` -/

theorem addR_lookup_self (l : List (String × ℝ)) (p : String) (a : ℝ) :
    dlookup (addR l p a) p = some ((dlookup l p).getD 0 + a) := by
  rw [addR, dlookup_dset_self]

theorem addR_lookup_ne (l : List (String × ℝ)) (p q : String) (a : ℝ) (h : q ≠ p) :
    dlookup (addR l p a) q = dlookup l q := by
  rw [addR, dlookup_dset_ne _ _ _ _ h]

theorem bump1_lookup_self (l : List (String × ℕ)) (p : String) :
    dlookup (bump1 l p) p = some ((dlookup l p).getD 0 + 1) := by
  rw [bump1, dlookup_dset_self]

theorem bump1_lookup_ne (l : List (String × ℕ)) (p q : String) (h : q ≠ p) :
    dlookup (bump1 l p) q = dlookup l q := by
  rw [bump1, dlookup_dset_ne _ _ _ _ h]

theorem add2_lookup_self (l : List (String × List (String × ℝ))) (p k : String) (a : ℝ) :
    dlookup2 (add2 l p k a) p k = some ((dlookup2 l p k).getD 0 + a) := by
  rw [add2, dlookup2, dlookup_dset_self]
  simp only [Option.getD_some]
  rw [dlookup_dset_self, dlookup2]

theorem add2_lookup_ne_key (l : List (String × List (String × ℝ))) (p k k' : String)
    (a : ℝ) (h : k' ≠ k) : dlookup2 (add2 l p k a) p k' = dlookup2 l p k' := by
  rw [add2, dlookup2, dlookup_dset_self]
  simp only [Option.getD_some]
  rw [dlookup_dset_ne _ _ _ _ h, dlookup2]

theorem add2_lookup_ne_player (l : List (String × List (String × ℝ))) (p q k k' : String)
    (a : ℝ) (h : q ≠ p) : dlookup2 (add2 l p k a) q k' = dlookup2 l q k' := by
  rw [add2, dlookup2, dlookup_dset_ne _ _ _ _ h, dlookup2]

theorem bump2_lookup_self (l : List (String × List (String × ℕ))) (p k : String) :
    dlookup2 (bump2 l p k) p k = some ((dlookup2 l p k).getD 0 + 1) := by
  rw [bump2, dlookup2, dlookup_dset_self]
  simp only [Option.getD_some]
  rw [dlookup_dset_self, dlookup2]

theorem bump2_lookup_ne_key (l : List (String × List (String × ℕ))) (p k k' : String)
    (h : k' ≠ k) : dlookup2 (bump2 l p k) p k' = dlookup2 l p k' := by
  rw [bump2, dlookup2, dlookup_dset_self]
  simp only [Option.getD_some]
  rw [dlookup_dset_ne _ _ _ _ h, dlookup2]

theorem bump2_lookup_ne_player (l : List (String × List (String × ℕ))) (p q k k' : String)
    (h : q ≠ p) : dlookup2 (bump2 l p k) q k' = dlookup2 l q k' := by
  rw [bump2, dlookup2, dlookup_dset_ne _ _ _ _ h, dlookup2]

/-! ### Branch lemmas for `get_rating` -/

theorem get_rating_overall (s : Engine) (p : String) :
    get_rating s p none none = (dlookup s.ratings p).getD s.default_rating := by
  simp [get_rating, otruthy]

theorem get_rating_surface (s : Engine) (p : String) (su : Option String)
    (h : otruthy su = true) :
    get_rating s p su none = (dlookup2 s.surfaces p (oval su)).getD s.default_rating := by
  rw [get_rating]
  rw [if_neg (fun hc => by
    have := hc.2
    simp [otruthy] at this)]
  rw [if_pos h, dlookup2_eq_bind]

theorem get_rating_surface_falsy (s : Engine) (p : String) (su : Option String)
    (h : otruthy su = false) :
    get_rating s p su none = (dlookup s.ratings p).getD s.default_rating := by
  rw [get_rating]
  rw [if_neg (fun hc => by rw [h] at hc; exact absurd hc.1 (by simp))]
  rw [if_neg (fun hc => by rw [h] at hc; exact absurd hc (by simp))]
  rw [if_neg (fun hc : otruthy (none : Option String) = true => by simp [otruthy] at hc)]

theorem get_rating_level (s : Engine) (p : String) (le : Option String)
    (h : otruthy le = true) :
    get_rating s p none le = (dlookup2 s.levels p (oval le)).getD s.default_rating := by
  rw [get_rating]
  rw [if_neg (fun hc => by
    have := hc.1
    simp [otruthy] at this)]
  rw [if_neg (fun hc : otruthy (none : Option String) = true => by simp [otruthy] at hc)]
  rw [if_pos h, dlookup2_eq_bind]

theorem get_rating_level_falsy (s : Engine) (p : String) (le : Option String)
    (h : otruthy le = false) :
    get_rating s p none le = (dlookup s.ratings p).getD s.default_rating := by
  rw [get_rating]
  rw [if_neg (fun hc => by rw [h] at hc; exact absurd hc.2 (by simp))]
  rw [if_neg (fun hc : otruthy (none : Option String) = true => by simp [otruthy] at hc)]
  rw [if_neg (fun hc => by rw [h] at hc; exact absurd hc (by simp))]

theorem get_rating_comb (s : Engine) (p : String) (su le : Option String)
    (hsu : otruthy su = true) (hle : otruthy le = true) :
    get_rating s p su le =
      (dlookup2 s.combined p (combinedKey (oval su) (oval le))).getD s.default_rating := by
  rw [get_rating, if_pos ⟨hsu, hle⟩, dlookup2_eq_bind]

theorem get_rating_comb_su_falsy (s : Engine) (p : String) (su le : Option String)
    (hsu : otruthy su = false) :
    get_rating s p su le = get_rating s p none le := by
  simp [get_rating, hsu, show otruthy (none : Option String) = false from rfl]

theorem get_rating_comb_le_falsy (s : Engine) (p : String) (su le : Option String)
    (hle : otruthy le = false) :
    get_rating s p su le = get_rating s p su none := by
  simp [get_rating, hle, show otruthy (none : Option String) = false from rfl]

/-! ### Field-level characterisation of `update_rating` -/

theorem upd_default (s : Engine) (w l : String) (score : Option String)
    (su le : Option String) (ws ls : Option ℤ) (td : Option DateInput) :
    (update_rating s w l score su le ws ls td).1.default_rating = s.default_rating := by
  by_cases hsu : otruthy su <;> by_cases hle : otruthy le <;>
    simp [update_rating, hsu, hle, ensure_default]

theorem upd_ratings (s : Engine) (w l : String) (score : Option String)
    (su le : Option String) (ws ls : Option ℤ) (td : Option DateInput) :
    (update_rating s w l score su le ws ls td).1.ratings =
      addR (addR (ensure_player_initialized (ensure_player_initialized s w su le) l su
          le).ratings w (update_rating s w l score su le ws ls td).2.delta_winner)
        l (-(update_rating s w l score su le ws ls td).2.delta_loser) := by
  by_cases hsu : otruthy su <;> by_cases hle : otruthy le <;>
    simp [update_rating, hsu, hle]

theorem upd_matches (s : Engine) (w l : String) (score : Option String)
    (su le : Option String) (ws ls : Option ℤ) (td : Option DateInput) :
    (update_rating s w l score su le ws ls td).1.matches_played =
      bump1 (bump1 (ensure_player_initialized (ensure_player_initialized s w su le) l su
        le).matches_played w) l := by
  by_cases hsu : otruthy su <;> by_cases hle : otruthy le <;>
    simp [update_rating, hsu, hle]

theorem upd_surfaces_t (s : Engine) (w l : String) (score : Option String)
    (su le : Option String) (ws ls : Option ℤ) (td : Option DateInput)
    (hsu : otruthy su = true) :
    (update_rating s w l score su le ws ls td).1.surfaces =
      add2 (add2 (ensure_player_initialized (ensure_player_initialized s w su le) l su
          le).surfaces w (oval su) (update_rating s w l score su le ws ls td).2.delta_winner)
        l (oval su) (-(update_rating s w l score su le ws ls td).2.delta_loser) := by
  by_cases hle : otruthy le <;> simp [update_rating, hsu, hle]

theorem upd_surfaces_f (s : Engine) (w l : String) (score : Option String)
    (su le : Option String) (ws ls : Option ℤ) (td : Option DateInput)
    (hsu : otruthy su = false) :
    (update_rating s w l score su le ws ls td).1.surfaces =
      (ensure_player_initialized (ensure_player_initialized s w su le) l su le).surfaces := by
  by_cases hle : otruthy le <;> simp [update_rating, hsu, hle]

theorem upd_levels_t (s : Engine) (w l : String) (score : Option String)
    (su le : Option String) (ws ls : Option ℤ) (td : Option DateInput)
    (hle : otruthy le = true) :
    (update_rating s w l score su le ws ls td).1.levels =
      add2 (add2 (ensure_player_initialized (ensure_player_initialized s w su le) l su
          le).levels w (oval le) (update_rating s w l score su le ws ls td).2.delta_winner)
        l (oval le) (-(update_rating s w l score su le ws ls td).2.delta_loser) := by
  by_cases hsu : otruthy su <;> simp [update_rating, hsu, hle]

theorem upd_levels_f (s : Engine) (w l : String) (score : Option String)
    (su le : Option String) (ws ls : Option ℤ) (td : Option DateInput)
    (hle : otruthy le = false) :
    (update_rating s w l score su le ws ls td).1.levels =
      (ensure_player_initialized (ensure_player_initialized s w su le) l su le).levels := by
  by_cases hsu : otruthy su <;> simp [update_rating, hsu, hle]

theorem upd_combined_t (s : Engine) (w l : String) (score : Option String)
    (su le : Option String) (ws ls : Option ℤ) (td : Option DateInput)
    (hsu : otruthy su = true) (hle : otruthy le = true) :
    (update_rating s w l score su le ws ls td).1.combined =
      add2 (add2 (ensure_player_initialized (ensure_player_initialized s w su le) l su
          le).combined w (combinedKey (oval su) (oval le))
          (update_rating s w l score su le ws ls td).2.delta_winner)
        l (combinedKey (oval su) (oval le))
        (-(update_rating s w l score su le ws ls td).2.delta_loser) := by
  simp [update_rating, hsu, hle]

theorem upd_combined_f (s : Engine) (w l : String) (score : Option String)
    (su le : Option String) (ws ls : Option ℤ) (td : Option DateInput)
    (h : ¬(otruthy su = true ∧ otruthy le = true)) :
    (update_rating s w l score su le ws ls td).1.combined =
      (ensure_player_initialized (ensure_player_initialized s w su le) l su le).combined := by
  by_cases hsu : otruthy su
  · by_cases hle : otruthy le
    · exact absurd ⟨hsu, hle⟩ h
    · simp [update_rating, hsu, hle]
  · by_cases hle : otruthy le <;> simp [update_rating, hsu, hle]

theorem upd_msurf_t (s : Engine) (w l : String) (score : Option String)
    (su le : Option String) (ws ls : Option ℤ) (td : Option DateInput)
    (hsu : otruthy su = true) :
    (update_rating s w l score su le ws ls td).1.matches_by_surface =
      bump2 (bump2 (ensure_player_initialized (ensure_player_initialized s w su le) l su
        le).matches_by_surface w (oval su)) l (oval su) := by
  by_cases hle : otruthy le <;> simp [update_rating, hsu, hle]

theorem upd_mlevel_t (s : Engine) (w l : String) (score : Option String)
    (su le : Option String) (ws ls : Option ℤ) (td : Option DateInput)
    (hle : otruthy le = true) :
    (update_rating s w l score su le ws ls td).1.matches_by_level =
      bump2 (bump2 (ensure_player_initialized (ensure_player_initialized s w su le) l su
        le).matches_by_level w (oval le)) l (oval le) := by
  by_cases hsu : otruthy su <;> simp [update_rating, hsu, hle]

theorem upd_mcomb_t (s : Engine) (w l : String) (score : Option String)
    (su le : Option String) (ws ls : Option ℤ) (td : Option DateInput)
    (hsu : otruthy su = true) (hle : otruthy le = true) :
    (update_rating s w l score su le ws ls td).1.matches_combined =
      bump2 (bump2 (ensure_player_initialized (ensure_player_initialized s w su le) l su
        le).matches_combined w (combinedKey (oval su) (oval le))) l
        (combinedKey (oval su) (oval le)) := by
  simp [update_rating, hsu, hle]

theorem upd_tourney (s : Engine) (w l : String) (score : Option String)
    (su le : Option String) (ws ls : Option ℤ) (td : Option DateInput) :
    (update_rating s w l score su le ws ls td).2.tourney =
      tourney_weights (pyUpper (levelStr le)) := rfl

theorem upd_deltas_same (s : Engine) (n : String) (score : Option String)
    (su le : Option String) (ws ls : Option ℤ) (td : Option DateInput) :
    (update_rating s n n score su le ws ls td).2.delta_winner =
      (update_rating s n n score su le ws ls td).2.delta_loser := rfl

/-- C9: calling `update_rating` with the same competitor as winner and loser
leaves every one of that competitor's ratings (overall and the match's
surface/tier/joint dimensions) at its pre-call value — the winner and loser
deltas cancel exactly because both learning rates are computed from the same
pre-update match count — while `matchesPlayed` and each applicable
per-dimension counter grow by 2.  The `hc*` hypotheses say a counter entry is
never present without its rating entry, which holds in every state the
engine builds (`ensure_player_initialized` creates both together). -/
theorem update_same_player (s : Engine) (n : String) (score : Option String)
    (surface tourney_level : Option String) (ws ls : Option ℤ) (td : Option DateInput)
    (hc0 : (dlookup s.ratings n).isNone → dlookup s.matches_played n = none)
    (hcS : otruthy surface = true → (dlookup2 s.surfaces n (oval surface)).isNone →
      dlookup2 s.matches_by_surface n (oval surface) = none)
    (hcL : otruthy tourney_level = true →
      (dlookup2 s.levels n (oval tourney_level)).isNone →
      dlookup2 s.matches_by_level n (oval tourney_level) = none)
    (hcC : otruthy surface = true → otruthy tourney_level = true →
      (dlookup2 s.combined n (combinedKey (oval surface) (oval tourney_level))).isNone →
      dlookup2 s.matches_combined n (combinedKey (oval surface) (oval tourney_level)) = none) :
    get_rating (update_rating s n n score surface tourney_level ws ls td).1 n none none =
      get_rating s n none none ∧
    get_rating (update_rating s n n score surface tourney_level ws ls td).1 n surface none =
      get_rating s n surface none ∧
    get_rating (update_rating s n n score surface tourney_level ws ls td).1 n none
        tourney_level = get_rating s n none tourney_level ∧
    get_rating (update_rating s n n score surface tourney_level ws ls td).1 n surface
        tourney_level = get_rating s n surface tourney_level ∧
    (dlookup (update_rating s n n score surface tourney_level ws ls td).1.matches_played
        n).getD 0 = (dlookup s.matches_played n).getD 0 + 2 ∧
    (otruthy surface = true →
      (dlookup2 (update_rating s n n score surface tourney_level ws ls
          td).1.matches_by_surface n (oval surface)).getD 0 =
        (dlookup2 s.matches_by_surface n (oval surface)).getD 0 + 2) ∧
    (otruthy tourney_level = true →
      (dlookup2 (update_rating s n n score surface tourney_level ws ls
          td).1.matches_by_level n (oval tourney_level)).getD 0 =
        (dlookup2 s.matches_by_level n (oval tourney_level)).getD 0 + 2) ∧
    (otruthy surface = true → otruthy tourney_level = true →
      (dlookup2 (update_rating s n n score surface tourney_level ws ls
          td).1.matches_combined n (combinedKey (oval surface) (oval tourney_level))).getD 0 =
        (dlookup2 s.matches_combined n
          (combinedKey (oval surface) (oval tourney_level))).getD 0 + 2) := by
  set u := update_rating s n n score surface tourney_level ws ls td with hu
  set e1 := ensure_player_initialized s n surface tourney_level with he1
  set e2 := ensure_player_initialized e1 n surface tourney_level with he2
  have hdel : u.2.delta_winner = u.2.delta_loser := by
    rw [hu]
    exact upd_deltas_same s n score surface tourney_level ws ls td
  have hudef : u.1.default_rating = s.default_rating := by
    rw [hu]
    exact upd_default s n n score surface tourney_level ws ls td
  have hv2 : dlookup e2.ratings n = some ((dlookup s.ratings n).getD s.default_rating) := by
    rw [he2, he1, ensure_ratings_self, ensure_ratings_self, ensure_default]
    simp
  have h1 : dlookup u.1.ratings n = some ((dlookup s.ratings n).getD s.default_rating) := by
    have h := upd_ratings s n n score surface tourney_level ws ls td
    rw [← he1, ← he2, ← hu] at h
    rw [h, addR_lookup_self, addR_lookup_self, hdel]
    simp only [Option.getD_some]
    rw [add_neg_cancel_right, hv2]
    simp
  have hoverall : get_rating u.1 n none none = get_rating s n none none := by
    rw [get_rating_overall, get_rating_overall, h1, hudef]
    simp
  have hsurf : get_rating u.1 n surface none = get_rating s n surface none := by
    rcases Bool.eq_false_or_eq_true (otruthy surface) with hsu | hsu
    · have hv2S : dlookup2 e2.surfaces n (oval surface) =
          some ((dlookup2 s.surfaces n (oval surface)).getD s.default_rating) := by
        rw [he2, he1, ensure_surfaces_self _ _ _ _ hsu, ensure_surfaces_self _ _ _ _ hsu,
          ensure_default]
        simp
      have h := upd_surfaces_t s n n score surface tourney_level ws ls td hsu
      rw [← he1, ← he2, ← hu] at h
      rw [get_rating_surface _ _ _ hsu, get_rating_surface _ _ _ hsu, h,
        add2_lookup_self, add2_lookup_self, hdel]
      simp only [Option.getD_some]
      rw [add_neg_cancel_right, hv2S]
      simp
    · rw [get_rating_surface_falsy _ _ _ hsu, get_rating_surface_falsy _ _ _ hsu, h1, hudef]
      simp
  have hlevel : get_rating u.1 n none tourney_level = get_rating s n none tourney_level := by
    rcases Bool.eq_false_or_eq_true (otruthy tourney_level) with hle | hle
    · have hv2L : dlookup2 e2.levels n (oval tourney_level) =
          some ((dlookup2 s.levels n (oval tourney_level)).getD s.default_rating) := by
        rw [he2, he1, ensure_levels_self _ _ _ _ hle, ensure_levels_self _ _ _ _ hle,
          ensure_default]
        simp
      have h := upd_levels_t s n n score surface tourney_level ws ls td hle
      rw [← he1, ← he2, ← hu] at h
      rw [get_rating_level _ _ _ hle, get_rating_level _ _ _ hle, h,
        add2_lookup_self, add2_lookup_self, hdel]
      simp only [Option.getD_some]
      rw [add_neg_cancel_right, hv2L]
      simp
    · rw [get_rating_level_falsy _ _ _ hle, get_rating_level_falsy _ _ _ hle, h1, hudef]
      simp
  have hcomb : get_rating u.1 n surface tourney_level =
      get_rating s n surface tourney_level := by
    rcases Bool.eq_false_or_eq_true (otruthy surface) with hsu | hsu
    · rcases Bool.eq_false_or_eq_true (otruthy tourney_level) with hle | hle
      · have hv2C : dlookup2 e2.combined n (combinedKey (oval surface) (oval tourney_level)) =
            some ((dlookup2 s.combined n
              (combinedKey (oval surface) (oval tourney_level))).getD s.default_rating) := by
          rw [he2, he1, ensure_combined_self _ _ _ _ hsu hle,
            ensure_combined_self _ _ _ _ hsu hle, ensure_default]
          simp
        have h := upd_combined_t s n n score surface tourney_level ws ls td hsu hle
        rw [← he1, ← he2, ← hu] at h
        rw [get_rating_comb _ _ _ _ hsu hle, get_rating_comb _ _ _ _ hsu hle, h,
          add2_lookup_self, add2_lookup_self, hdel]
        simp only [Option.getD_some]
        rw [add_neg_cancel_right, hv2C]
        simp
      · rw [get_rating_comb_le_falsy _ _ _ _ hle, get_rating_comb_le_falsy _ _ _ _ hle]
        exact hsurf
    · rw [get_rating_comb_su_falsy _ _ _ _ hsu, get_rating_comb_su_falsy _ _ _ _ hsu]
      exact hlevel
  have hce1 : (dlookup e1.ratings n).isNone → dlookup e1.matches_played n = none := by
    intro h0
    rw [he1, ensure_ratings_self] at h0
    simp at h0
  have hm2 : (dlookup e2.matches_played n).getD 0 = (dlookup s.matches_played n).getD 0 := by
    rw [he2, ensure_matches_self _ _ _ _ hce1, he1, ensure_matches_self _ _ _ _ hc0]
  have hmatches : (dlookup u.1.matches_played n).getD 0 =
      (dlookup s.matches_played n).getD 0 + 2 := by
    have h := upd_matches s n n score surface tourney_level ws ls td
    rw [← he1, ← he2, ← hu] at h
    rw [h, bump1_lookup_self, bump1_lookup_self]
    simp only [Option.getD_some]
    rw [hm2]
  refine ⟨hoverall, hsurf, hlevel, hcomb, hmatches, ?_, ?_, ?_⟩
  · intro hsu
    have hce1S : (dlookup2 e1.surfaces n (oval surface)).isNone →
        dlookup2 e1.matches_by_surface n (oval surface) = none := by
      intro h0
      rw [he1, ensure_surfaces_self _ _ _ _ hsu] at h0
      simp at h0
    have hm2S : (dlookup2 e2.matches_by_surface n (oval surface)).getD 0 =
        (dlookup2 s.matches_by_surface n (oval surface)).getD 0 := by
      rw [he2, ensure_msurf_self _ _ _ _ hsu hce1S, he1,
        ensure_msurf_self _ _ _ _ hsu (hcS hsu)]
    have h := upd_msurf_t s n n score surface tourney_level ws ls td hsu
    rw [← he1, ← he2, ← hu] at h
    rw [h, bump2_lookup_self, bump2_lookup_self]
    simp only [Option.getD_some]
    rw [hm2S]
  · intro hle
    have hce1L : (dlookup2 e1.levels n (oval tourney_level)).isNone →
        dlookup2 e1.matches_by_level n (oval tourney_level) = none := by
      intro h0
      rw [he1, ensure_levels_self _ _ _ _ hle] at h0
      simp at h0
    have hm2L : (dlookup2 e2.matches_by_level n (oval tourney_level)).getD 0 =
        (dlookup2 s.matches_by_level n (oval tourney_level)).getD 0 := by
      rw [he2, ensure_mlevel_self _ _ _ _ hle hce1L, he1,
        ensure_mlevel_self _ _ _ _ hle (hcL hle)]
    have h := upd_mlevel_t s n n score surface tourney_level ws ls td hle
    rw [← he1, ← he2, ← hu] at h
    rw [h, bump2_lookup_self, bump2_lookup_self]
    simp only [Option.getD_some]
    rw [hm2L]
  · intro hsu hle
    have hce1C : (dlookup2 e1.combined n
          (combinedKey (oval surface) (oval tourney_level))).isNone →
        dlookup2 e1.matches_combined n
          (combinedKey (oval surface) (oval tourney_level)) = none := by
      intro h0
      rw [he1, ensure_combined_self _ _ _ _ hsu hle] at h0
      simp at h0
    have hm2C : (dlookup2 e2.matches_combined n
          (combinedKey (oval surface) (oval tourney_level))).getD 0 =
        (dlookup2 s.matches_combined n
          (combinedKey (oval surface) (oval tourney_level))).getD 0 := by
      rw [he2, ensure_mcomb_self _ _ _ _ hsu hle hce1C, he1,
        ensure_mcomb_self _ _ _ _ hsu hle (hcC hsu hle)]
    have h := upd_mcomb_t s n n score surface tourney_level ws ls td hsu hle
    rw [← he1, ← he2, ← hu] at h
    rw [h, bump2_lookup_self, bump2_lookup_self]
    simp only [Option.getD_some]
    rw [hm2C]

/-- Companion evaluation for C9: a self-match of the fresh competitor "X" on
surface "clay", tier "M", against an empty engine — the overall rating read
is unchanged and the match counters grow by 2. -/
theorem update_same_player_witness :
    get_rating (update_rating (init_engine 32 1500 0.85 0) "X" "X" none (some "clay")
        (some "M") none none none).1 "X" none none =
      get_rating (init_engine 32 1500 0.85 0) "X" none none ∧
    (dlookup (update_rating (init_engine 32 1500 0.85 0) "X" "X" none (some "clay")
        (some "M") none none none).1.matches_played "X").getD 0 =
      (dlookup (init_engine 32 1500 0.85 0).matches_played "X").getD 0 + 2 ∧
    (dlookup2 (update_rating (init_engine 32 1500 0.85 0) "X" "X" none (some "clay")
        (some "M") none none none).1.matches_by_surface "X" (oval (some "clay"))).getD 0 =
      (dlookup2 (init_engine 32 1500 0.85 0).matches_by_surface "X"
        (oval (some "clay"))).getD 0 + 2 := by
  have h := update_same_player (init_engine 32 1500 0.85 0) "X" none (some "clay") (some "M")
    none none none (fun _ => rfl) (fun _ _ => rfl) (fun _ _ => rfl) (fun _ _ _ => rfl)
  exact ⟨h.1, h.2.2.2.2.1, h.2.2.2.2.2.1 (by decide)⟩

/-- C10: an update with tier string "m" uses the weight of "M" (1.3, the
lookup upper-cases the code), but the tier and joint dictionaries are keyed
by the exact string "m": the entries under "m" (and joint "clay_m") receive
the winner delta while the entries under "M" (and "clay_M") are untouched.
The `hcLm`/`hOutL` hypotheses again just say no counter entry exists without
its rating entry. -/
theorem update_lowercase_tier (s : Engine) (w l : String) (score : Option String)
    (ws ls : Option ℤ) (td : Option DateInput) (hwl : l ≠ w)
    (hcLm : (dlookup2 s.levels w "m").isNone → dlookup2 s.matches_by_level w "m" = none)
    (hOutL : (dlookup s.levels w).isNone → dlookup s.matches_by_level w = none) :
    (update_rating s w l score (some "clay") (some "m") ws ls td).2.tourney =
        tourney_weights "M" ∧
    tourney_weights "M" = 13/10 ∧
    dlookup2 (update_rating s w l score (some "clay") (some "m") ws ls td).1.levels w "m" =
      some ((dlookup2 s.levels w "m").getD s.default_rating +
        (update_rating s w l score (some "clay") (some "m") ws ls td).2.delta_winner) ∧
    dlookup2 (update_rating s w l score (some "clay") (some "m") ws ls td).1.levels w "M" =
      dlookup2 s.levels w "M" ∧
    (dlookup2 (update_rating s w l score (some "clay") (some "m") ws ls
        td).1.matches_by_level w "m").getD 0 =
      (dlookup2 s.matches_by_level w "m").getD 0 + 1 ∧
    dlookup2 (update_rating s w l score (some "clay") (some "m") ws ls
        td).1.matches_by_level w "M" = dlookup2 s.matches_by_level w "M" ∧
    dlookup2 (update_rating s w l score (some "clay") (some "m") ws ls td).1.combined w
        (combinedKey "clay" "m") =
      some ((dlookup2 s.combined w (combinedKey "clay" "m")).getD s.default_rating +
        (update_rating s w l score (some "clay") (some "m") ws ls td).2.delta_winner) ∧
    dlookup2 (update_rating s w l score (some "clay") (some "m") ws ls td).1.combined w
        (combinedKey "clay" "M") = dlookup2 s.combined w (combinedKey "clay" "M") := by
  have hsu : otruthy (some "clay") = true := by decide
  have hle : otruthy (some "m") = true := by decide
  have hov : oval (some "m") = "m" := rfl
  have hovc : oval (some "clay") = "clay" := rfl
  set u := update_rating s w l score (some "clay") (some "m") ws ls td with hu
  set e1 := ensure_player_initialized s w (some "clay") (some "m") with he1
  set e2 := ensure_player_initialized e1 l (some "clay") (some "m") with he2
  have hwl' : w ≠ l := Ne.symm hwl
  refine ⟨?_, ?_, ?_, ?_, ?_, ?_, ?_, ?_⟩
  · rw [hu, upd_tourney, show pyUpper (levelStr (some "m")) = "M" from by decide]
  · simp [tourney_weights]
  · have h := upd_levels_t s w l score (some "clay") (some "m") ws ls td hle
    rw [← he1, ← he2, ← hu] at h
    rw [h, hov, add2_lookup_ne_player _ _ _ _ _ _ hwl', add2_lookup_self]
    have hv : dlookup2 e2.levels w "m" =
        some ((dlookup2 s.levels w "m").getD s.default_rating) := by
      rw [he2, ensure_levels_lookup, if_neg (fun hc => hwl hc.1.symm), he1]
      have h2 := ensure_levels_self s w (some "clay") (some "m") hle
      rw [hov] at h2
      rw [h2]
    rw [hv]
    simp
  · have h := upd_levels_t s w l score (some "clay") (some "m") ws ls td hle
    rw [← he1, ← he2, ← hu] at h
    rw [h, hov, add2_lookup_ne_player _ _ _ _ _ _ hwl',
      add2_lookup_ne_key _ _ _ _ _ (by decide : ("M" : String) ≠ "m")]
    rw [he2, ensure_levels_lookup, if_neg (fun hc => hwl hc.1.symm), he1,
      ensure_levels_lookup, if_neg (fun hc => by
        rw [hov] at hc
        exact absurd hc.2.2.1 (by decide))]
  · have h := upd_mlevel_t s w l score (some "clay") (some "m") ws ls td hle
    rw [← he1, ← he2, ← hu] at h
    rw [h, hov, bump2_lookup_ne_player _ _ _ _ _ hwl', bump2_lookup_self]
    simp only [Option.getD_some]
    have hpres : dlookup2 e2.matches_by_level w "m" = dlookup2 e1.matches_by_level w "m" := by
      rw [he2, ensure_mlevel_lookup, if_neg (fun hc => hwl hc.1.symm),
        if_neg (fun hc => hwl hc.1.symm)]
    rw [hpres, he1]
    have h2 := ensure_mlevel_self s w (some "clay") (some "m") hle (by
      rw [hov]
      exact hcLm)
    rw [hov] at h2
    rw [h2]
  · have h := upd_mlevel_t s w l score (some "clay") (some "m") ws ls td hle
    rw [← he1, ← he2, ← hu] at h
    rw [h, hov, bump2_lookup_ne_player _ _ _ _ _ hwl',
      bump2_lookup_ne_key _ _ _ _ (by decide : ("M" : String) ≠ "m")]
    have hpres : dlookup2 e2.matches_by_level w "M" = dlookup2 e1.matches_by_level w "M" := by
      rw [he2, ensure_mlevel_lookup, if_neg (fun hc => hwl hc.1.symm),
        if_neg (fun hc => hwl hc.1.symm)]
    rw [hpres, he1, ensure_mlevel_lookup, if_neg (fun hc => by
      rw [hov] at hc
      exact absurd hc.2.2.1 (by decide))]
    by_cases ho : (dlookup s.levels w).isNone
    · rw [if_pos ⟨rfl, ho⟩, dlookup2_outer_none _ _ _ (hOutL ho)]
    · rw [if_neg (fun hc => ho hc.2)]
  · have h := upd_combined_t s w l score (some "clay") (some "m") ws ls td hsu hle
    rw [← he1, ← he2, ← hu] at h
    rw [h, hov, hovc, add2_lookup_ne_player _ _ _ _ _ _ hwl', add2_lookup_self]
    have hv : dlookup2 e2.combined w (combinedKey "clay" "m") =
        some ((dlookup2 s.combined w (combinedKey "clay" "m")).getD s.default_rating) := by
      rw [he2, ensure_combined_lookup, if_neg (fun hc => hwl hc.1.symm), he1]
      have h2 := ensure_combined_self s w (some "clay") (some "m") hsu hle
      rw [hov, hovc] at h2
      rw [h2]
    rw [hv]
    simp
  · have h := upd_combined_t s w l score (some "clay") (some "m") ws ls td hsu hle
    rw [← he1, ← he2, ← hu] at h
    rw [h, hov, hovc, add2_lookup_ne_player _ _ _ _ _ _ hwl',
      add2_lookup_ne_key _ _ _ _ _
        (by decide : combinedKey "clay" "M" ≠ combinedKey "clay" "m")]
    rw [he2, ensure_combined_lookup, if_neg (fun hc => hwl hc.1.symm), he1,
      ensure_combined_lookup, if_neg (fun hc => by
        rw [hov, hovc] at hc
        exact absurd hc.2.2.2.1 (by decide))]

/-- Companion evaluation for C10 on a fresh engine: the update of "A" vs "B"
at tier "m" uses the weight of "M" yet leaves the "M"-keyed tier entry
untouched. -/
theorem update_lowercase_tier_witness :
    ("B" : String) ≠ "A" ∧
    (update_rating (init_engine 32 1500 0.85 0) "A" "B" none (some "clay") (some "m")
        none none none).2.tourney = tourney_weights "M" ∧
    dlookup2 (update_rating (init_engine 32 1500 0.85 0) "A" "B" none (some "clay")
        (some "m") none none none).1.levels "A" "M" =
      dlookup2 (init_engine 32 1500 0.85 0).levels "A" "M" := by
  refine ⟨by decide, ?_, ?_⟩
  · exact (update_lowercase_tier (init_engine 32 1500 0.85 0) "A" "B" none none none none
      (by decide) (fun _ => rfl) (fun _ => rfl)).1
  · exact (update_lowercase_tier (init_engine 32 1500 0.85 0) "A" "B" none none none none
      (by decide) (fun _ => rfl) (fun _ => rfl)).2.2.2.1
